import Mathlib

/-!
Verification of the three pipeline adapters (Cloudflare AI, Grok/x.AI,
Perplexity) of `examples/pipelines/providers`.  Each adapter is shallowly
embedded: its catalog resolver (`get_*_models`) and chat entry point
(`pipe`) become total Lean functions over an explicit model of the host
body, the JSON values a vendor may return, and the outcome of each HTTP
call.  The network is a parameter: an `HttpOutcome` per POST/GET the code
may issue, and each function also returns the list of requests it issued,
so "no network call" and "exactly one fallback request" are provable.
Python exceptions that the source catches are modelled by `Except` error
values flowing to the handler that catches them; the one uncaught raise
(in the Perplexity `pipe`) surfaces as a distinguished `PipeResult.raise`.
-/

/-! ### Python-style string primitives

The Lean core `String` functions on byte positions do not reduce in the
kernel, so the embedding uses structural char-list equivalents with
CPython semantics (code-point comparisons, contiguous substring search).
-/

/-- Python `needle in hay` for strings: contiguous substring containment. -/
def strIn (needle hay : String) : Bool :=
  decide (needle.data <:+: hay.data)

/-- Python `c in s` for a one-character needle. -/
def containsChar (s : String) (c : Char) : Bool :=
  s.data.any (fun x => x == c)

/-- Python `s.lower()` (ASCII range, as `Char.toLower`). -/
def pyLower (s : String) : String :=
  ⟨s.data.map Char.toLower⟩

/-- Python `s.startswith(pat)`. -/
def pyStartsWith (s pat : String) : Bool :=
  pat.data.isPrefixOf s.data

/-- Helper of `pySplitChar`: accumulates the current piece reversed. -/
def splitCharAux (c : Char) : List Char → List Char → List String
  | [], acc => [⟨acc.reverse⟩]
  | x :: xs, acc =>
    if x == c then (⟨acc.reverse⟩ : String) :: splitCharAux c xs []
    else splitCharAux c xs (x :: acc)

/-- Python `s.split(c)` for a one-character separator: `"" ↦ [""]`,
`"a.b." ↦ ["a", "b", ""]`. -/
def pySplitChar (s : String) (c : Char) : List String :=
  splitCharAux c s.data []

/-- Everything after the first occurrence of `c` (the whole list when `c`
does not occur): the tail piece of Python `s.split(c, 1)`. -/
def dropThroughFirst (c : Char) : List Char → List Char
  | [] => []
  | x :: xs => if x == c then xs else dropThroughFirst c xs

/-- Python `s.split(c, 1)[-1]` when `c` occurs in `s`. -/
def splitOnceTail (s : String) (c : Char) : String :=
  ⟨dropThroughFirst c s.data⟩

/-- Python `s.split(c)[-1]`. -/
def lastPiece (s : String) (c : Char) : String :=
  (pySplitChar s c).getLastD s

/-- Helper of `pyReplace`: if `pat` is a prefix of `s`, the remainder of
`s` past it. -/
def stripOcc : List Char → List Char → Option (List Char)
  | [], s => some s
  | _ :: _, [] => none
  | p :: ps, x :: xs => if p == x then stripOcc ps xs else none

/-- Helper of `pyReplace`, fuelled by the length of the scanned list so the
recursion is structural (the fuel never runs out: each step consumes at
least one character). Only used with a non-empty pattern. -/
def replChars (pat repl : List Char) : Nat → List Char → List Char
  | _, [] => []
  | 0, s => s
  | Nat.succ n, x :: xs =>
    match stripOcc pat (x :: xs) with
    | some rest =>
      if pat.isEmpty then x :: replChars pat repl n xs
      else repl ++ replChars pat repl n rest
    | none => x :: replChars pat repl n xs

/-- Python `s.replace(pat, repl)` for a non-empty `pat`: every occurrence,
left to right, non-overlapping. -/
def pyReplace (s pat repl : String) : String :=
  ⟨replChars pat.data repl.data s.data.length s.data⟩

/-- Lexicographic (code-point) `≤` on char lists: Python string comparison. -/
def lexLe : List Char → List Char → Bool
  | [], _ => true
  | _ :: _, [] => false
  | a :: as, b :: bs => if a == b then lexLe as bs else decide (a.toNat < b.toNat)

/-- Python string `a <= b`. -/
def pyStrLe (a b : String) : Bool :=
  lexLe a.data b.data

/-! ### Stable insertion sort

CPython `list.sort` is stable; a stable sort's output is determined by the
comparator alone, so this insertion sort computes exactly what
`list.sort(key=...)` (and, with the reversed comparator, `reverse=True`)
produces. `le e y` means `e` may stand before `y`. -/

/-- Inserts `e` before the first element `y` with `le e y`. -/
def insertLe {α : Type} (le : α → α → Bool) (e : α) : List α → List α
  | [] => [e]
  | y :: ys => if le e y then e :: y :: ys else y :: insertLe le e ys

/-- Stable insertion sort by `le`. -/
def sortByLe {α : Type} (le : α → α → Bool) : List α → List α
  | [] => []
  | x :: xs => insertLe le x (sortByLe le xs)

/-! ### JSON values

The values `requests.Response.json()` can produce.  Numbers are modelled
as integers (no claim involves fractional payload values). -/

inductive Json where
  | null : Json
  | bool : Bool → Json
  | num : Int → Json
  | str : String → Json
  | arr : List Json → Json
  | obj : List (String × Json) → Json

mutual
/-- Python `==` on JSON values restricted to same-type comparisons (the
embedding never compares `True` with `1`, which Python would equate). -/
def Json.beq : Json → Json → Bool
  | .null, .null => true
  | .bool a, .bool b => a == b
  | .num a, .num b => a == b
  | .str a, .str b => a == b
  | .arr a, .arr b => Json.beqList a b
  | .obj a, .obj b => Json.beqFields a b
  | _, _ => false
def Json.beqList : List Json → List Json → Bool
  | [], [] => true
  | a :: as, b :: bs => Json.beq a b && Json.beqList as bs
  | _, _ => false
def Json.beqFields : List (String × Json) → List (String × Json) → Bool
  | [], [] => true
  | (k, v) :: as, (l, w) :: bs => k == l && Json.beq v w && Json.beqFields as bs
  | _, _ => false
end

instance : BEq Json := ⟨Json.beq⟩

/-- Python truthiness of a JSON value. -/
def Json.truthy : Json → Bool
  | .null => false
  | .bool b => b
  | .num n => n != 0
  | .str s => ¬ s.isEmpty
  | .arr xs => ¬ xs.isEmpty
  | .obj fs => ¬ fs.isEmpty

mutual
/-- Python `repr` of a JSON value (no escaping inside strings: the
responses the adapters handle carry plain text). -/
def Json.pyRepr : Json → String
  | .null => "None"
  | .bool true => "True"
  | .bool false => "False"
  | .num n => toString n
  | .str s => "'" ++ s ++ "'"
  | .arr xs => "[" ++ String.intercalate ", " (Json.pyReprList xs) ++ "]"
  | .obj fs => "\x7b" ++ String.intercalate ", " (Json.pyReprFields fs) ++ "\x7d"
def Json.pyReprList : List Json → List String
  | [] => []
  | x :: xs => Json.pyRepr x :: Json.pyReprList xs
def Json.pyReprFields : List (String × Json) → List String
  | [] => []
  | (k, v) :: fs => ("'" ++ k ++ "': " ++ Json.pyRepr v) :: Json.pyReprFields fs
end

/-- Python `str()` of a JSON value (a top-level string prints bare,
anything else as its repr). -/
def Json.pyStr : Json → String
  | .str s => s
  | j => Json.pyRepr j

/-- Field lookup on an object (Python dicts have unique keys, so first
match is the value). `none` for a non-object or an absent key. -/
def Json.lookup? : Json → String → Option Json
  | .obj fs, k => fs.lookup k
  | _, _ => none

/-- Python `d.get(k, default)` on an object: the stored value even when it
is `null`, the default only when the key is absent. Only applied where the
source has already established `d` is a dict. -/
def Json.getD (j : Json) (k : String) (d : Json) : Json :=
  (j.lookup? k).getD d

/-- Python `k in d` on an object. -/
def Json.hasKey (j : Json) (k : String) : Bool :=
  (j.lookup? k).isSome

/-- Python `d[k]`: `KeyError` on an object missing the key, `TypeError`
when the subscripted value is not a dict. -/
def Json.getKey (j : Json) (k : String) : Except String Json :=
  match j with
  | .obj fs =>
    match fs.lookup k with
    | some v => .ok v
    | none => .error ("KeyError: '" ++ k ++ "'")
  | _ => .error "TypeError: value is not subscriptable by a string key"

/-! ### The host calling convention and the transport -/

/-- One entry of the host `messages` list as the adapters read it: both
keys may be absent (`dict.get` / raw indexing decide what then happens). -/
structure Msg where
  role : Option String := none
  content : Option String := none

/-- The host `body` mapping, restricted to the keys the adapters consult.
A field is `none` when the key is absent; `some Json.null` models a key
present with value `None`.  `stream` is the host's boolean valve. -/
structure Body where
  messages : Option (List Msg) := none
  stream : Option Bool := none
  temperature : Option Json := none
  top_p : Option Json := none
  max_tokens : Option Json := none
  presence_penalty : Option Json := none
  frequency_penalty : Option Json := none

/-- Source: `if param in body and body[param] is not None: payload[param] =
body[param]` — the payload carries the value iff it is present and not
`None`. -/
def presentParam : Option Json → Option Json
  | some Json.null => none
  | some j => some j
  | none => none

/-- The JSON payload a chat POST carries.  `model` is `none` when the
source deleted the key (Cloudflare run endpoint).  `return_citations` and
`return_images` exist only in the Perplexity payload; the other two
adapters leave them at `false` and never emit them. -/
structure Payload where
  model : Option String := none
  messages : List Msg := []
  stream : Bool := true
  temperature : Option Json := none
  top_p : Option Json := none
  max_tokens : Option Json := none
  presence_penalty : Option Json := none
  frequency_penalty : Option Json := none
  return_citations : Bool := false
  return_images : Bool := false

/-- A catalog GET the resolver issued: URL and Authorization header. -/
structure GetRequest where
  url : String
  auth : String

/-- A chat POST the entry point issued. -/
structure HttpRequest where
  url : String
  auth : String
  payload : Payload

/-- What one HTTP call comes back as.  `resp` carries the status code, the
reason phrase, `r.url`, the result of `r.json()` (`Except.error` when the
body does not parse, with the exception's text) and `r.text`. -/
inductive HttpOutcome where
  | timeout : HttpOutcome
  | connError : HttpOutcome
  | exc : String → HttpOutcome
  | resp : Nat → String → String → Except String Json → String → HttpOutcome

/-- What `pipe` hands back to the host: an error (or message) string, the
raw line iterator of a streaming response, a parsed JSON mapping — or an
exception that escapes `pipe` (only the Perplexity adapter has such a
path). -/
inductive PipeResult where
  | str : String → PipeResult
  | iterLines : List String → PipeResult
  | json : Json → PipeResult
  | raise : String → PipeResult

/-- True exactly for a `PipeResult.raise`: an exception escaping `pipe`. -/
def PipeResult.isRaise : PipeResult → Bool
  | .raise _ => true
  | _ => false

/-- The raw line iterator `r.iter_lines()` of a response, modelled as the
lines of its text. -/
def iterLinesOf (text : String) : List String :=
  pySplitChar text '\n'

/-- Shared by the Grok and Perplexity `pipe` (the code is duplicated in
both files): the detail appended to a non-success error string when the
body's text is non-empty and JSON extraction failed. -/
def textDetail (text : String) : String :=
  if text.isEmpty then "" else ". Details: " ++ text

/-- Source (Grok lines 190–202, Perplexity lines 208–220): try `r.json()`;
a dict with an `"error"` key appends `". " + error.get("message", "")` —
`.get` on a non-dict `error` value raises `AttributeError`, caught by the
bare `except`, which falls back to `r.text`.  A parse failure also falls
back to the text; parsed JSON without the recognised shape appends
nothing. -/
def errorFieldDetail (jsonBody : Except String Json) (text : String) : String :=
  match jsonBody with
  | .ok (Json.obj fs) =>
    match fs.lookup "error" with
    | some (Json.obj efs) => ". " ++ ((Json.obj efs).getD "message" (.str "")).pyStr
    | some _ => textDetail text
    | none => ""
  | .ok _ => ""
  | .error _ => textDetail text

/-- A catalog entry as the Cloudflare and Perplexity resolvers build one:
`id` and display name straight from the vendor response (any JSON value —
the source never coerces them). -/
structure ModelEntry where
  id : Json
  name : Json

/-- Source (`models.sort(key=lambda x: x["name"])`): CPython compares the
keys; comparing a non-string key against a string raises `TypeError`.  The
embedding raises whenever a name is not a string — the only key shape the
vendors return. -/
def sortEntriesByName (ms : List ModelEntry) : Except String (List ModelEntry) :=
  if ms.all (fun m => match m.name with | .str _ => true | _ => false) then
    .ok (sortByLe
      (fun a b =>
        pyStrLe (match a.name with | .str s => s | _ => "")
          (match b.name with | .str s => s | _ => "")) ms)
  else .error "TypeError: unorderable sort keys"

/-! ### Cloudflare AI adapter (`cloudflare_ai_pipeline.py`) -/

namespace Cloudflare

/-- The adapter's valves (environment-sourced credentials). -/
structure Valves where
  CLOUDFLARE_ACCOUNT_ID : String := ""
  CLOUDFLARE_API_KEY : String := ""

/-- Source line 45. -/
def base_url : String := "https://api.cloudflare.com/client/v4/accounts"

/-- Source lines 62–65: the hard-coded fallback catalog. -/
def fallback_models : List ModelEntry :=
  [ { id := .str "@cf/meta/llama-3-8b-instruct", name := .str "Llama 3 8B Instruct" },
    { id := .str "@cf/mistral/mistral-7b-instruct-v0.1", name := .str "Mistral 7B Instruct" } ]

/-- Source lines 107–134: one entry of the response's `result` list.
`Except.error` stands for an exception thrown while processing it (caught
by the resolver's `except`, which returns the fallback): a non-dict entry
(`.get` raises `AttributeError`), a non-string `type` (`.lower()` raises),
a truthy non-string `provider`, or a non-string display name lowered for
the provider comparison.  `.ok none` is an entry the filter drops. -/
def processModel (entry : Json) : Except String (Option ModelEntry) :=
  match entry with
  | .obj fs =>
    let model_id : Json := (Json.obj fs).getD "id" (.str "")
    let capabilities : Json := (Json.obj fs).getD "capabilities" (.obj [])
    match (Json.obj fs).getD "type" (.str "") with
    | .str ty =>
      let model_type := pyLower ty
      let is_text_model :=
        model_type == "text-generation" || model_type == "chat-completions" ||
        model_type == "text-to-text" || strIn "chat" model_type
      if model_id.truthy &&
          (is_text_model || strIn "chat_completions" (pyLower capabilities.pyStr)) then
        let display_name : Json := (Json.obj fs).getD "name" model_id
        match (Json.obj fs).getD "provider" (.str "") with
        | prov =>
          if prov.truthy then
            match prov, display_name with
            | .str p, .str d =>
              if strIn (pyLower p) (pyLower d) then
                .ok (some { id := model_id, name := display_name })
              else
                .ok (some { id := model_id, name := .str (d ++ " (" ++ p ++ ")") })
            | _, _ => .error "AttributeError: no attribute lower"
          else
            .ok (some { id := model_id, name := display_name })
      else .ok none
    | _ => .error "AttributeError: no attribute lower"
  | _ => .error "AttributeError: no attribute get"

/-- Source lines 103–134: the `for model in result_data` loop, in order. -/
def processModels : List Json → Except String (List ModelEntry)
  | [] => .ok []
  | e :: es =>
    match processModel e with
    | .error m => .error m
    | .ok r =>
      match processModels es with
      | .error m => .error m
      | .ok rest => .ok (match r with | some m => m :: rest | none => rest)

/-- Source lines 81–149: what the resolver makes of the catalog GET's
outcome.  A non-200 status returns `[]` (line 93); a body that parses but
fails the `success`/`result` check returns `[]` (line 100); any exception
(parse failure, a non-dict body, a non-list `result`, an entry that raises
while processed, unorderable sort keys) is caught and yields the fallback;
a well-formed response with no chat-capable model yields the fallback
(line 139); otherwise the kept models, sorted by display name. -/
def catalogFrom (net : HttpOutcome) : List ModelEntry :=
  match net with
  | .timeout => fallback_models
  | .connError => fallback_models
  | .exc _ => fallback_models
  | .resp status _ _ jsonBody _ =>
    if status ≠ 200 then []
    else
      match jsonBody with
      | .error _ => fallback_models
      | .ok data =>
        match data with
        | .obj fs =>
          if ¬ (((Json.obj fs).getD "success" (.bool false)).truthy) ||
              ¬ ((Json.obj fs).hasKey "result") then
            []
          else
            match (Json.obj fs).getD "result" (.arr []) with
            | .arr entries =>
              match processModels entries with
              | .error _ => fallback_models
              | .ok models =>
                if models.isEmpty then fallback_models
                else
                  match sortEntriesByName models with
                  | .ok sorted => sorted
                  | .error _ => fallback_models
            | _ => fallback_models
        | _ => fallback_models

/-- Source lines 59–149, `get_cloudflare_models`.  `net` is the outcome of
the single catalog GET; the second component is the list of requests
issued.  Never raises: every exception inside the `try` is caught and
yields the fallback. -/
def get_cloudflare_models (valves : Valves) (net : HttpOutcome) :
    List ModelEntry × List GetRequest :=
  if valves.CLOUDFLARE_API_KEY.isEmpty || valves.CLOUDFLARE_ACCOUNT_ID.isEmpty then
    (fallback_models, [])
  else
    (catalogFrom net,
     [{ url := base_url ++ "/" ++ valves.CLOUDFLARE_ACCOUNT_ID ++ "/ai/models",
        auth := "Bearer " ++ valves.CLOUDFLARE_API_KEY }])

/-- Source lines 252–278: the error string built for a non-200 chat
response, before the troubleshooting suffix.  A truthy `errors` list whose
head is a dict with a `message` appends it; a truthy `errors` of any other
shape raises while being indexed and the bare `except` falls back to
`r.text`; a falsy or absent `errors` falls through to the `error` field. -/
def errorDetail (jsonBody : Except String Json) (text : String) : String :=
  match jsonBody with
  | .ok (Json.obj fs) =>
    match fs.lookup "errors" with
    | some v =>
      if v.truthy then
        match v with
        | .arr (first :: _) =>
          match first.getKey "message" with
          | .ok m => ". " ++ m.pyStr
          | .error _ => textDetail text
        | _ => textDetail text
      else
        match fs.lookup "error" with
        | some (Json.obj efs) =>
          match efs.lookup "message" with
          | some m => ". " ++ m.pyStr
          | none => ". " ++ (Json.obj efs).pyRepr
        | some w => ". " ++ w.pyStr
        | none => ""
    | none =>
      match fs.lookup "error" with
      | some (Json.obj efs) =>
        match efs.lookup "message" with
        | some m => ". " ++ m.pyStr
        | none => ". " ++ (Json.obj efs).pyRepr
      | some w => ". " ++ w.pyStr
      | none => ""
  | .ok _ => ""
  | .error _ => textDetail text

/-- Source line 278. -/
def troubleshooting : String :=
  "\n\nTroubleshooting: Please check that your Cloudflare API key and Account ID are correct and have the necessary permissions."

/-- The message of the `UnboundLocalError` raised at source line 281 when
`model_id_for_url` was never assigned (non-`@cf/` model): the name is only
bound on the `@cf/` branch at line 222, yet the f-string of the
`url.endswith` test always evaluates it.  The outermost handler turns it
into `"Error: " + str(e)` (wording as of CPython 3.11). -/
def unboundLocalMsg : String :=
  "cannot access local variable 'model_id_for_url' where it is not associated with a value"

/-- Source line 184: `model_id.split(".", 1)[-1] if "." in model_id else
model_id` — everything after the FIRST dot (the other two adapters keep
only the part after the last one). -/
def stripModelName (model_id : String) : String :=
  if containsChar model_id '.' then splitOnceTail model_id '.' else model_id

/-- Source lines 198–212: the fresh payload (`model`, the body's
`messages`, `stream` defaulting to `True`, and the present non-`None`
generation parameters).  The deletion loop over `user`, `chat_id` and
`title` (lines 210–212) is a no-op: the payload was built fresh and never
holds them. -/
def buildPayload (model_name : String) (body : Body) : Payload :=
  { model := some model_name,
    messages := body.messages.getD [],
    stream := body.stream.getD true,
    temperature := presentParam body.temperature,
    top_p := presentParam body.top_p,
    max_tokens := presentParam body.max_tokens,
    presence_penalty := presentParam body.presence_penalty,
    frequency_penalty := presentParam body.frequency_penalty }

/-- Source lines 281–313: the fallback POST to the v1 chat-completions
endpoint, attempted only for a `@cf/` model whose primary request came
back 400 or 404; returns the fallback's success result, or the PRIMARY
request's `error_message` when the fallback also fails. -/
def fallbackAttempt (valves : Valves) (model_name : String) (fallback_payload : Payload)
    (error_message : String) (net2 : HttpOutcome) : PipeResult :=
  match net2 with
  | .resp s2 _ _ jb2 t2 =>
    if s2 = 200 then
      if fallback_payload.stream then .iterLines (iterLinesOf t2)
      else
        match jb2 with
        | .ok j => .json j
        | .error _ => .str error_message
    else .str error_message
  | _ => .str error_message

/-- Source lines 218–327: URL selection, the POST(s) and the response
handling, once the checks of lines 178–216 have passed. -/
def sendAndHandle (valves : Valves) (model_name : String) (payload0 : Payload)
    (net1 net2 : HttpOutcome) : PipeResult × List HttpRequest :=
  let isRun := pyStartsWith model_name "@cf/"
  let url :=
    if isRun then
      base_url ++ "/" ++ valves.CLOUDFLARE_ACCOUNT_ID ++ "/ai/run/" ++ pyReplace model_name "@cf/" ""
    else
      base_url ++ "/" ++ valves.CLOUDFLARE_ACCOUNT_ID ++ "/ai/v1/chat/completions"
  let payload := if isRun then { payload0 with model := none } else payload0
  let auth := "Bearer " ++ valves.CLOUDFLARE_API_KEY
  let req1 : HttpRequest := { url := url, auth := auth, payload := payload }
  match net1 with
  | .timeout =>
    (.str "Error: Request to Cloudflare AI API timed out. Please try again later.", [req1])
  | .connError =>
    (.str "Error: Could not connect to Cloudflare AI API. Please check your internet connection.", [req1])
  | .exc m => (.str ("Error: " ++ m), [req1])
  | .resp status reason respUrl jsonBody text =>
    if status = 200 then
      (if payload.stream then .iterLines (iterLinesOf text)
       else
         match jsonBody with
         | .ok j => .json j
         | .error m => .str ("Error: " ++ m),
       [req1])
    else
      let error_message :=
        "Error: " ++ toString status ++ " " ++ reason ++ " for url: " ++ respUrl
          ++ errorDetail jsonBody text ++ troubleshooting
      if isRun then
        if status = 400 ∨ status = 404 then
          let fallback_payload := { payload with model := some model_name }
          let req2 : HttpRequest :=
            { url := base_url ++ "/" ++ valves.CLOUDFLARE_ACCOUNT_ID ++ "/ai/v1/chat/completions",
              auth := auth, payload := fallback_payload }
          (fallbackAttempt valves model_name fallback_payload error_message net2, [req1, req2])
        else (.str error_message, [req1])
      else
        (.str ("Error: " ++ unboundLocalMsg), [req1])

/-- Source lines 171–327, `pipe`.  `pipelines` is the adapter's cached
catalog (`self.pipelines`); `net1` is the outcome of the primary POST and
`net2` of the fallback POST, consumed only if that request is issued. -/
def pipe (valves : Valves) (pipelines : List ModelEntry)
    (user_message : String) (model_id : String) (messages : List Msg) (body : Body)
    (net1 net2 : HttpOutcome) : PipeResult × List HttpRequest :=
  if valves.CLOUDFLARE_API_KEY.isEmpty then
    (.str "Error: No Cloudflare API key provided. Please add your API key in the pipeline valves.", [])
  else if valves.CLOUDFLARE_ACCOUNT_ID.isEmpty then
    (.str "Error: No Cloudflare Account ID provided. Please add your Account ID in the pipeline valves.", [])
  else
    let model_name := stripModelName model_id
    if ¬ pipelines.any (fun m => Json.beq m.id (.str model_name)) then
      (.str ("Error: Model '" ++ model_name ++ "' not found in available Cloudflare models. Please select a different model."), [])
    else
      let payload0 := buildPayload model_name body
      if payload0.messages.isEmpty then
        (.str "Error: No messages provided in the request", [])
      else
        sendAndHandle valves model_name payload0 net1 net2

end Cloudflare

/-! ### Grok adapter (`grok_manifold_pipeline.py`) -/

namespace Grok

/-- The adapter's valves. -/
structure Valves where
  GROK_API_BASE_URL : String := "https://api.x.ai/v1"
  GROK_API_KEY : String := ""

/-- One catalog entry: the filter guarantees a string id; the display name
is whatever JSON value the response carried. -/
structure GrokModel where
  id : String
  name : Json

/-- Source lines 56–59: the default models. -/
def default_models : List GrokModel :=
  [ { id := "grok-1", name := .str "Grok-1" },
    { id := "grok-1-mini", name := .str "Grok-1 Mini" } ]

/-- Source lines 105–112: the `for model in models_data["data"]` filter.
A non-dict entry raises (`.get` on it) — `Except.error`, caught by the
resolver, which returns the defaults.  An entry whose `id` is not a string
fails the `isinstance` test and is skipped; one whose string id does not
contain `"grok"` case-insensitively is skipped. -/
def filterGrokEntries : List Json → Except String (List GrokModel)
  | [] => .ok []
  | e :: es =>
    match e with
    | .obj fs =>
      match (Json.obj fs).getD "id" (.str "") with
      | .str s =>
        match filterGrokEntries es with
        | .error m => .error m
        | .ok rest =>
          if strIn "grok" (pyLower s) then
            .ok ({ id := s, name := (Json.obj fs).getD "name" (.str s) } :: rest)
          else .ok rest
      | _ =>
        match filterGrokEntries es with
        | .error m => .error m
        | .ok rest => .ok rest
    | _ => .error "AttributeError: no attribute get"

/-- Source lines 75–127: what the resolver makes of the catalog GET's
outcome.  Every failure — an exception, a non-200 status, a body that is
not a dict with a `data` key, a non-list `data` (iterating it raises), an
entry that raises, or a filter result with no Grok model — yields the
defaults.  A non-empty filter result is sorted by id, descending
(`reverse=True`, stable). -/
def catalogFrom (net : HttpOutcome) : List GrokModel :=
  match net with
  | .timeout => default_models
  | .connError => default_models
  | .exc _ => default_models
  | .resp status _ _ jsonBody _ =>
    if status ≠ 200 then default_models
    else
      match jsonBody with
      | .error _ => default_models
      | .ok data =>
        match data with
        | .obj fs =>
          match fs.lookup "data" with
          | some (.arr entries) =>
            match filterGrokEntries entries with
            | .error _ => default_models
            | .ok grok_models =>
              if grok_models.isEmpty then default_models
              else sortByLe (fun a b => pyStrLe b.id a.id) grok_models
          | some _ => default_models
          | none => default_models
        | _ => default_models

/-- Source lines 54–127, `get_grok_models`.  `net` is the outcome of the
catalog GET.  Never raises: the defaults stand in on every failure. -/
def get_grok_models (valves : Valves) (net : HttpOutcome) :
    List GrokModel × List GetRequest :=
  if valves.GROK_API_KEY.isEmpty then (default_models, [])
  else
    (catalogFrom net,
     [{ url := valves.GROK_API_BASE_URL ++ "/models",
        auth := "Bearer " ++ valves.GROK_API_KEY }])

/-- Source line 140: `model_id.split(".")[-1] if "." in model_id else
model_id` — everything after the LAST dot. -/
def stripModelName (model_id : String) : String :=
  if containsChar model_id '.' then lastPiece model_id '.' else model_id

/-- Source lines 150–159: the fresh payload. -/
def buildPayload (model_name : String) (body : Body) : Payload :=
  { model := some model_name,
    messages := body.messages.getD [],
    stream := body.stream.getD true,
    temperature := presentParam body.temperature,
    top_p := presentParam body.top_p,
    max_tokens := presentParam body.max_tokens,
    presence_penalty := presentParam body.presence_penalty,
    frequency_penalty := presentParam body.frequency_penalty }

/-- Source lines 165–172: the message-normalisation loop fills a missing
`role` with `"user"` and a missing `content` with `""`. -/
def normalizeMessages (p : Payload) : Payload :=
  { p with
    messages := p.messages.map (fun m =>
      { role := some (m.role.getD "user"), content := some (m.content.getD "") }) }

/-- Source lines 176–218: the response handling of the single POST. -/
def respond (payload : Payload) (net1 : HttpOutcome) : PipeResult :=
  match net1 with
  | .timeout => .str "Error: Request to Grok API timed out. Please try again later."
  | .connError => .str "Error: Could not connect to Grok API. Please check your internet connection."
  | .exc m => .str ("Error: " ++ m)
  | .resp status reason respUrl jsonBody text =>
    if status ≠ 200 then
      .str ("Error: " ++ toString status ++ " " ++ reason ++ " for url: " ++ respUrl
        ++ errorFieldDetail jsonBody text)
    else if payload.stream then .iterLines (iterLinesOf text)
    else
      match jsonBody with
      | .ok j => .json j
      | .error m => .str ("Error: " ++ m)

/-- Source lines 129–218, `pipe`.  `net1` is the outcome of the single
chat POST; once past the credential and empty-messages checks, exactly one
request is issued whatever the outcome. -/
def pipe (valves : Valves) (user_message : String) (model_id : String)
    (messages : List Msg) (body : Body) (net1 : HttpOutcome) :
    PipeResult × List HttpRequest :=
  if valves.GROK_API_KEY.isEmpty then
    (.str "Error: No Grok API key provided. Please add your API key in the pipeline valves.", [])
  else
    let model_name := stripModelName model_id
    let payload0 := buildPayload model_name body
    if payload0.messages.isEmpty then
      (.str "Error: No messages provided in the request", [])
    else
      let payload := normalizeMessages payload0
      (respond payload net1,
       [{ url := valves.GROK_API_BASE_URL ++ "/chat/completions",
          auth := "Bearer " ++ valves.GROK_API_KEY, payload := payload }])

end Grok

/-- A Python list comprehension over fallible element processing: left to
right, stopping at the first raise. -/
def exceptMapList {α β : Type} (f : α → Except String β) : List α → Except String (List β)
  | [] => .ok []
  | x :: xs =>
    match f x with
    | .error e => .error e
    | .ok y =>
      match exceptMapList f xs with
      | .error e => .error e
      | .ok ys => .ok (y :: ys)

/-! ### Perplexity adapter (`perplexity_manifold_pipeline.py`) -/

namespace Perplexity

/-- The adapter's valves. -/
structure Valves where
  PERPLEXITY_API_BASE_URL : String := "https://api.perplexity.ai"
  PERPLEXITY_API_KEY : String := ""

/-- Source lines 19–25: the constructor reads
`os.getenv("PERPLEXITY_API_KEY", "your-perplexity-api-key-here")` — the
placeholder default, not the empty string, when the variable is unset
(`env = none`). -/
def init_api_key (env : Option String) : String :=
  env.getD "your-perplexity-api-key-here"

/-- Source lines 53–60: the six-entry default catalog. -/
def default_models : List ModelEntry :=
  [ { id := .str "sonar-deep-research", name := .str "Sonar Deep Research (128k)" },
    { id := .str "sonar-reasoning-pro", name := .str "Sonar Reasoning Pro (128k)" },
    { id := .str "sonar-reasoning", name := .str "Sonar Reasoning (128k)" },
    { id := .str "sonar-pro", name := .str "Sonar Pro (200k)" },
    { id := .str "sonar", name := .str "Sonar (128k)" },
    { id := .str "r1-1776", name := .str "R1-1776 (128k)" } ]

/-- Source lines 98–111: one entry of the live model list.  A truthy
`context_window` appends `"(Nk)"` (floor division by 1000) when the value
is at least 1000, else the raw value in parentheses; comparing a truthy
non-number against 1000 raises `TypeError` (caught by the resolver, which
returns the defaults).  A truthy `True` compares as 1 in Python and prints
as `True`. -/
def processEntry (e : Json) : Except String ModelEntry :=
  match e with
  | .obj fs =>
    let model_id := (Json.obj fs).getD "id" (.str "")
    let model_name := (Json.obj fs).getD "name" model_id
    let cw := (Json.obj fs).getD "context_window" Json.null
    if cw.truthy then
      match cw with
      | .num n =>
        let context_size :=
          if n ≥ 1000 then "(" ++ toString (n / 1000) ++ "k)"
          else "(" ++ toString n ++ ")"
        .ok { id := model_id, name := .str (model_name.pyStr ++ " " ++ context_size) }
      | .bool _ =>
        .ok { id := model_id, name := .str (model_name.pyStr ++ " (True)") }
      | _ => .error "TypeError: unorderable types"
    else .ok { id := model_id, name := model_name }
  | _ => .error "AttributeError: no attribute get"

/-- Source lines 96–111: the entry loop, in order. -/
def processEntries : List Json → Except String (List ModelEntry)
  | [] => .ok []
  | e :: es =>
    match processEntry e with
    | .error m => .error m
    | .ok m =>
      match processEntries es with
      | .error m => .error m
      | .ok rest => .ok (m :: rest)

/-- Source lines 67–126: what the resolver makes of the catalog GET's
outcome.  Every failure (an exception, a non-200 status, a non-dict body,
a missing or non-list `data`, an entry that raises, an empty result,
unorderable sort keys) yields the defaults; a non-empty well-formed result
is sorted by display name. -/
def catalogFrom (net : HttpOutcome) : List ModelEntry :=
  match net with
  | .timeout => default_models
  | .connError => default_models
  | .exc _ => default_models
  | .resp status _ _ jsonBody _ =>
    if status ≠ 200 then default_models
    else
      match jsonBody with
      | .error _ => default_models
      | .ok data =>
        match data with
        | .obj fs =>
          match fs.lookup "data" with
          | some (.arr entries) =>
            match processEntries entries with
            | .error _ => default_models
            | .ok perplexity_models =>
              if perplexity_models.isEmpty then default_models
              else
                match sortEntriesByName perplexity_models with
                | .ok sorted => sorted
                | .error _ => default_models
          | some _ => default_models
          | none => default_models
        | _ => default_models

/-- Source lines 50–126, `get_perplexity_models`.  `net` is the outcome of
the catalog GET.  Never raises: the defaults stand in on every failure. -/
def get_perplexity_models (valves : Valves) (net : HttpOutcome) :
    List ModelEntry × List GetRequest :=
  if valves.PERPLEXITY_API_KEY.isEmpty then (default_models, [])
  else
    (catalogFrom net,
     [{ url := valves.PERPLEXITY_API_BASE_URL ++ "/models",
        auth := "Bearer " ++ valves.PERPLEXITY_API_KEY }])

/-- Modelled from the spec: `utils.pipelines.main.pop_system_message` is
imported at source line 6 but its code is not part of this repository.
Spec §4.2 step 4 describes the Perplexity translator as "placing a
resolved system prompt first, followed by prior turns": the helper
extracts the first system message, if any, and returns the remaining
messages with system messages removed. -/
def pop_system_message (messages : List Msg) : Option Msg × List Msg :=
  (messages.find? (fun m => m.role == some "system"),
   messages.filter (fun m => ¬ m.role == some "system"))

/-- Source lines 142–169, up to the payload: the steps before the `try`
block, where an exception is NOT caught and escapes `pipe`.  Raises
(`Except.error`, carrying the `KeyError` text) when the popped system
message has no `content` (line 145), or when `user_message` is non-empty,
the remaining messages are non-empty, and their last entry has no `role` —
or has role `"user"` and no `content` (line 168). -/
def buildMessages (user_message : String) (messages : List Msg) :
    Except String (List Msg) :=
  let popped := pop_system_message messages
  match
    (match popped.1 with
     | none => Except.ok "You are a helpful assistant."
     | some sm =>
       match sm.content with
       | some c => Except.ok c
       | none => Except.error "KeyError: 'content'") with
  | .error e => .error e
  | .ok system_prompt =>
    let rest := popped.2
    let formatted : List Msg :=
      { role := some "system", content := some system_prompt } ::
        rest.map (fun m =>
          { role := some (m.role.getD "user"), content := some (m.content.getD "") })
    match
      (if user_message.isEmpty then Except.ok false
       else
         match rest.getLast? with
         | none => Except.ok true
         | some last =>
           match last.role with
           | none => Except.error "KeyError: 'role'"
           | some r =>
             if r ≠ "user" then Except.ok true
             else
               match last.content with
               | none => Except.error "KeyError: 'content'"
               | some c => Except.ok (c ≠ user_message)) with
    | .error e => .error e
    | .ok addCurrent =>
      .ok (formatted ++
        if addCurrent then [{ role := some "user", content := some user_message }] else [])

/-- Source lines 231–234: one citation rendered as an HTML anchor; a
citation that is not a dict with `url` and `title` raises (caught by the
outer handler, which returns an error string). -/
def renderCitation (c : Json) : Except String String :=
  match c.getKey "url" with
  | .error e => .error e
  | .ok u =>
    match c.getKey "title" with
    | .error e => .error e
    | .ok t =>
      .ok ("<a href=\"" ++ u.pyStr ++ "\" target=\"_blank\" rel=\"noopener noreferrer\">"
        ++ t.pyStr ++ "</a>")

/-- Source lines 229–234: the citation list of the response — `[]` when
the key is absent; each entry rendered in order; a non-list value raises
while being iterated. -/
def extractCitations (response : Json) : Except String (List String) :=
  match response.lookup? "citations" with
  | some (.arr cs) => exceptMapList renderCitation cs
  | some _ => .error "TypeError: citations value is not iterable as dicts"
  | none => .ok []

/-- Source lines 248–258: one choice of the formatted response, rebuilt
with the (possibly citation-augmented) content and an empty `delta`. -/
def rebuildChoice (content : Json) (choice : Json) : Except String Json :=
  match choice.getKey "index" with
  | .error e => .error e
  | .ok idx =>
    match choice.getKey "finish_reason" with
    | .error e => .error e
    | .ok fr =>
      match choice.getKey "message" with
      | .error e => .error e
      | .ok m =>
        match m.getKey "role" with
        | .error e => .error e
        | .ok role =>
          .ok (Json.obj
            [ ("index", idx), ("finish_reason", fr),
              ("message", Json.obj [("role", role), ("content", content)]),
              ("delta", Json.obj [("role", .str "assistant"), ("content", .str "")]) ])

/-- Source lines 227–260: the non-streaming post-processing of a parsed
200 response.  Extracts citations, appends the `Sources` block to the
first choice's content when there is at least one, and rebuilds the
response object; any shape violation raises and the outer handler turns it
into `"Error: " + str(e)`. -/
def formatResponse (response : Json) : Except String Json :=
  match extractCitations response with
  | .error e => .error e
  | .ok citations =>
    match response.getKey "choices" with
    | .error e => .error e
    | .ok choicesVal =>
      match
        (match choicesVal with
         | .arr (c :: cs) => Except.ok (c, cs)
         | .arr [] => Except.error "IndexError: list index out of range"
         | _ => Except.error "TypeError: choices value is not subscriptable") with
      | .error e => .error e
      | .ok (c0, crest) =>
        match c0.getKey "message" with
        | .error e => .error e
        | .ok m0 =>
          match m0.getKey "content" with
          | .error e => .error e
          | .ok content0 =>
            let content : Json :=
              if citations.isEmpty then content0
              else
                .str (content0.pyStr ++ "<br><br><b>Sources:</b><br>"
                  ++ String.intercalate "<br>" (citations.map (fun c => "• " ++ c)))
            match response.getKey "id" with
            | .error e => .error e
            | .ok jid =>
              match response.getKey "model" with
              | .error e => .error e
              | .ok jmodel =>
                match response.getKey "created" with
                | .error e => .error e
                | .ok jcreated =>
                  match response.getKey "usage" with
                  | .error e => .error e
                  | .ok jusage =>
                    match response.getKey "object" with
                    | .error e => .error e
                    | .ok jobject =>
                      match exceptMapList (rebuildChoice content) (c0 :: crest) with
                      | .error e => .error e
                      | .ok newChoices =>
                        .ok (Json.obj
                          [ ("id", jid), ("model", jmodel), ("created", jcreated),
                            ("usage", jusage), ("object", jobject),
                            ("choices", .arr newChoices) ])

/-- Source line 139: `model_id.split(".")[-1] if "." in model_id else
model_id` — everything after the LAST dot. -/
def stripModelName (model_id : String) : String :=
  if containsChar model_id '.' then lastPiece model_id '.' else model_id

/-- Source lines 171–189: the payload, with `return_citations` and
`return_images` set unconditionally.  The deletion loop over `user`,
`chat_id`, `title` (lines 184–189) is a no-op: the payload never holds
them. -/
def buildPayload (model_name : String) (formatted_messages : List Msg) (body : Body) : Payload :=
  { model := some model_name,
    messages := formatted_messages,
    stream := body.stream.getD true,
    return_citations := true,
    return_images := true,
    temperature := presentParam body.temperature,
    top_p := presentParam body.top_p,
    max_tokens := presentParam body.max_tokens,
    presence_penalty := presentParam body.presence_penalty,
    frequency_penalty := presentParam body.frequency_penalty }

/-- Source lines 193–267: the response handling of the single POST.  The
success branch consults `body.get("stream", False)` — default `False` —
although the payload was built with `body.get("stream", True)`. -/
def respond (body : Body) (net1 : HttpOutcome) : PipeResult :=
  match net1 with
  | .timeout => .str "Error: Request to Perplexity API timed out. Please try again later."
  | .connError => .str "Error: Could not connect to Perplexity API. Please check your internet connection."
  | .exc m => .str ("Error: " ++ m)
  | .resp status reason respUrl jsonBody text =>
    if status ≠ 200 then
      .str ("Error: " ++ toString status ++ " " ++ reason ++ " for url: " ++ respUrl
        ++ errorFieldDetail jsonBody text)
    else if body.stream.getD false then .iterLines (iterLinesOf text)
    else
      match jsonBody with
      | .error m => .str ("Error: " ++ m)
      | .ok response =>
        match formatResponse response with
        | .ok j => .json j
        | .error m => .str ("Error: " ++ m)

/-- Source lines 128–267, `pipe`.  `net1` is the outcome of the single
chat POST.  Unlike the other two adapters the message rebuilding happens
before the `try`, so its `KeyError`s escape as `PipeResult.raise`; once
past it, exactly one request is issued whatever the outcome. -/
def pipe (valves : Valves) (user_message : String) (model_id : String)
    (messages : List Msg) (body : Body) (net1 : HttpOutcome) :
    PipeResult × List HttpRequest :=
  if valves.PERPLEXITY_API_KEY.isEmpty then
    (.str "Error: No Perplexity API key provided. Please add your API key in the pipeline valves.", [])
  else
    let model_name := stripModelName model_id
    match buildMessages user_message messages with
    | .error e => (.raise e, [])
    | .ok formatted_messages =>
      let payload := buildPayload model_name formatted_messages body
      (respond body net1,
       [{ url := valves.PERPLEXITY_API_BASE_URL ++ "/chat/completions",
          auth := "Bearer " ++ valves.PERPLEXITY_API_KEY, payload := payload }])

end Perplexity

/-! ### Spec-side notions used by the claims -/

/-- The claim's notion "the error string contains ...": `t` occurs in `s`
as a contiguous substring. -/
def containsStr (s t : String) : Prop :=
  t.data <:+: s.data

instance (s t : String) : Decidable (containsStr s t) :=
  inferInstanceAs (Decidable (t.data <:+: s.data))

/-- A `PipeResult` that is a string beginning with `"Error:"`. -/
def isErrorString : PipeResult → Bool
  | .str s => pyStartsWith s "Error:"
  | _ => false

/-- The string id of a vendor model-list entry as the Grok filter reads
it (spec: "entries whose string id contains the substring 'grok'"):
`model.get("id", "")` when the entry is a dict and the value is a string. -/
def entryIdString (e : Json) : Option String :=
  match e with
  | .obj fs =>
    match (Json.obj fs).getD "id" (.str "") with
    | .str s => some s
    | _ => none
  | _ => none

/-- The rendered HTML anchor for one citation, as the source's f-string
builds it. -/
def anchorOf (c : String × String) : String :=
  "<a href=\"" ++ c.1 ++ "\" target=\"_blank\" rel=\"noopener noreferrer\">" ++ c.2 ++ "</a>"

/-- Spec §4.3 / claim C8: the rendered `Sources` block for a list of
`(url, title)` citations, one anchor per citation, in order. -/
def sourcesBlock (cites : List (String × String)) : String :=
  "<br><br><b>Sources:</b><br>" ++
    String.intercalate "<br>" (cites.map (fun c => "• " ++ anchorOf c))

/-- A citations array of `(url, title)` records as JSON. -/
def citesJson (cites : List (String × String)) : Json :=
  .arr (cites.map (fun c => Json.obj [("url", .str c.1), ("title", .str c.2)]))


/-- The shape `formatResponse` needs of a choice entry so that rebuilding
it does not raise: `index`, `finish_reason` and a `message` with a `role`
are all present. -/
def choiceShaped (c : Json) : Prop :=
  ∃ i f mm r, c.getKey "index" = Except.ok i ∧ c.getKey "finish_reason" = Except.ok f ∧
    c.getKey "message" = Except.ok mm ∧ mm.getKey "role" = Except.ok r

/-! ### Order and permutation facts about the insertion sort -/

theorem insertLe_perm {α : Type} (le : α → α → Bool) (e : α) (l : List α) :
    (insertLe le e l).Perm (e :: l) := by
  induction l with
  | nil => exact List.Perm.refl _
  | cons y ys ih =>
    by_cases h : le e y = true
    · simp only [insertLe, h, if_true]
      exact List.Perm.refl _
    · simp only [insertLe, h, if_false, Bool.false_eq_true, if_neg, not_false_iff]
      exact (List.Perm.cons y ih).trans (List.Perm.swap e y ys)

theorem sortByLe_perm {α : Type} (le : α → α → Bool) (l : List α) :
    (sortByLe le l).Perm l := by
  induction l with
  | nil => exact List.Perm.refl _
  | cons x xs ih =>
    exact (insertLe_perm le x (sortByLe le xs)).trans (List.Perm.cons x ih)

theorem mem_insertLe {α : Type} (le : α → α → Bool) (e b : α) (l : List α)
    (hb : b ∈ insertLe le e l) : b = e ∨ b ∈ l := by
  have h := (insertLe_perm le e l).mem_iff.mp hb
  exact List.mem_cons.mp h

theorem pairwise_insertLe {α : Type} (le : α → α → Bool)
    (htot : ∀ a b, le a b = true ∨ le b a = true)
    (htrans : ∀ a b c, le a b = true → le b c = true → le a c = true)
    (e : α) (l : List α) (h : l.Pairwise (fun a b => le a b = true)) :
    (insertLe le e l).Pairwise (fun a b => le a b = true) := by
  induction l with
  | nil => simp [insertLe]
  | cons y ys ih =>
    rcases List.pairwise_cons.mp h with ⟨hy, hys⟩
    by_cases hc : le e y = true
    · simp only [insertLe, hc, if_true]
      refine List.pairwise_cons.mpr ⟨?_, h⟩
      intro b hb
      rcases List.mem_cons.mp hb with rfl | hb
      · exact hc
      · exact htrans e y b hc (hy b hb)
    · simp only [insertLe, hc, if_neg, Bool.false_eq_true, not_false_iff, if_false]
      refine List.pairwise_cons.mpr ⟨?_, ih hys⟩
      intro b hb
      rcases mem_insertLe le e b ys hb with rfl | hb
      · rcases htot b y with hby | hyb
        · exact absurd hby hc
        · exact hyb
      · exact hy b hb

theorem pairwise_sortByLe {α : Type} (le : α → α → Bool)
    (htot : ∀ a b, le a b = true ∨ le b a = true)
    (htrans : ∀ a b c, le a b = true → le b c = true → le a c = true)
    (l : List α) : (sortByLe le l).Pairwise (fun a b => le a b = true) := by
  induction l with
  | nil => simp [sortByLe]
  | cons x xs ih => exact pairwise_insertLe le htot htrans x (sortByLe le xs) ih

/-! ### The Python string order is total and transitive -/

theorem lexLe_total : ∀ a b : List Char, lexLe a b = true ∨ lexLe b a = true := by
  intro a
  induction a with
  | nil => intro b; left; rfl
  | cons x xs ih =>
    intro b
    cases b with
    | nil => right; rfl
    | cons y ys =>
      by_cases hxy : x = y
      · subst hxy
        rcases ih ys with h | h
        · left; simpa [lexLe] using h
        · right; simpa [lexLe] using h
      · have hne : (x == y) = false := by simpa using hxy
        have hne' : (y == x) = false := by simpa using (Ne.symm hxy)
        rcases Nat.lt_or_ge x.toNat y.toNat with hlt | hge
        · left; simp [lexLe, hne, hlt]
        · right
          have : y.toNat < x.toNat := by
            rcases Nat.lt_or_eq_of_le hge with h | h
            · exact h
            · exact absurd (Char.ext (UInt32.ext h.symm)) hxy
          simp [lexLe, hne', this]

theorem lexLe_trans :
    ∀ a b c : List Char, lexLe a b = true → lexLe b c = true → lexLe a c = true := by
  intro a
  induction a with
  | nil => intro b c _ _; rfl
  | cons x xs ih =>
    intro b c hab hbc
    cases b with
    | nil => simp [lexLe] at hab
    | cons y ys =>
      cases c with
      | nil => simp [lexLe] at hbc
      | cons z zs =>
        by_cases hxy : x = y <;> by_cases hyz : y = z
        · subst hxy; subst hyz
          simp only [lexLe, beq_self_eq_true, if_true] at hab hbc ⊢
          exact ih ys zs hab hbc
        · subst hxy
          have h1 : (x == z) = false := by simpa using hyz
          simp only [lexLe, beq_self_eq_true, if_true, h1, if_false, Bool.false_eq_true,
            not_false_iff, if_neg] at hbc ⊢
          simpa using hbc
        · subst hyz
          have h1 : (x == y) = false := by simpa using hxy
          simp only [lexLe, h1, Bool.false_eq_true, not_false_iff, if_neg] at hab ⊢
          simpa using hab
        · have h1 : (x == y) = false := by simpa using hxy
          have h2 : (y == z) = false := by simpa using hyz
          have hab' : x.toNat < y.toNat := by
            simpa [lexLe, h1] using hab
          have hbc' : y.toNat < z.toNat := by
            simpa [lexLe, h2] using hbc
          have hxz : x.toNat < z.toNat := Nat.lt_trans hab' hbc'
          have h3 : (x == z) = false := by
            by_cases hxz2 : x = z
            · subst hxz2
              exact absurd hxz (Nat.lt_irrefl _)
            · simpa using hxz2
          simp [lexLe, h3, hxz]

/-! ### The claims -/

/-- C1: for each of the three adapters, with the required credential valves
empty, the catalog resolver returns its non-empty hard-coded fallback list,
the chat entry point returns a string beginning with "Error:", and neither
issues any HTTP request. -/
theorem claim_C1 :
    (∀ net, Cloudflare.get_cloudflare_models
        { CLOUDFLARE_ACCOUNT_ID := "", CLOUDFLARE_API_KEY := "" } net
        = (Cloudflare.fallback_models, [])) ∧
    Cloudflare.fallback_models ≠ [] ∧
    (∀ pls um mid msgs body n1 n2,
      isErrorString (Cloudflare.pipe { CLOUDFLARE_ACCOUNT_ID := "", CLOUDFLARE_API_KEY := "" }
        pls um mid msgs body n1 n2).1 = true ∧
      (Cloudflare.pipe { CLOUDFLARE_ACCOUNT_ID := "", CLOUDFLARE_API_KEY := "" }
        pls um mid msgs body n1 n2).2 = []) ∧
    (∀ base net, Grok.get_grok_models { GROK_API_BASE_URL := base, GROK_API_KEY := "" } net
        = (Grok.default_models, [])) ∧
    Grok.default_models ≠ [] ∧
    (∀ base um mid msgs body n1,
      isErrorString (Grok.pipe { GROK_API_BASE_URL := base, GROK_API_KEY := "" }
        um mid msgs body n1).1 = true ∧
      (Grok.pipe { GROK_API_BASE_URL := base, GROK_API_KEY := "" } um mid msgs body n1).2 = []) ∧
    (∀ base net, Perplexity.get_perplexity_models
        { PERPLEXITY_API_BASE_URL := base, PERPLEXITY_API_KEY := "" } net
        = (Perplexity.default_models, [])) ∧
    Perplexity.default_models ≠ [] ∧
    (∀ base um mid msgs body n1,
      isErrorString (Perplexity.pipe { PERPLEXITY_API_BASE_URL := base, PERPLEXITY_API_KEY := "" }
        um mid msgs body n1).1 = true ∧
      (Perplexity.pipe { PERPLEXITY_API_BASE_URL := base, PERPLEXITY_API_KEY := "" }
        um mid msgs body n1).2 = []) := by
  refine ⟨fun net => rfl, by simp [Cloudflare.fallback_models],
    fun pls um mid msgs body n1 n2 => ⟨rfl, rfl⟩,
    fun base net => rfl, by simp [Grok.default_models],
    fun base um mid msgs body n1 => ⟨rfl, rfl⟩,
    fun base net => rfl, by simp [Perplexity.default_models],
    fun base um mid msgs body n1 => ⟨rfl, rfl⟩⟩

/-- C10: with `PERPLEXITY_API_KEY` unset at construction, the configured
key defaults to the non-empty placeholder, the missing-credential checks
in `get_perplexity_models` and `pipe` do not trigger, and both functions
issue their network call with the placeholder as the bearer token. -/
theorem claim_C10 :
    Perplexity.init_api_key none = "your-perplexity-api-key-here" ∧
    Perplexity.init_api_key none ≠ "" ∧
    (∀ net, ∃ ms,
      Perplexity.get_perplexity_models { PERPLEXITY_API_KEY := Perplexity.init_api_key none } net
        = (ms, [{ url := "https://api.perplexity.ai/models",
                  auth := "Bearer your-perplexity-api-key-here" }])) ∧
    (∀ net, (Perplexity.pipe { PERPLEXITY_API_KEY := Perplexity.init_api_key none }
        "hi" "sonar" [] {} net).2.map HttpRequest.auth
        = ["Bearer your-perplexity-api-key-here"]) := by
  refine ⟨rfl, by decide, fun net => ⟨_, rfl⟩, fun net => rfl⟩

/-- C2 counterexample: for `model_id = "a.b.c"` the text after the last
dot is `"c"`, yet the Cloudflare `pipe` checks the catalog for `"b.c"` —
`split(".", 1)[-1]`, the text after the FIRST dot — and reports it as the
model it looked for. -/
theorem claim_C2_counterexample :
    lastPiece "a.b.c" '.' = "c" ∧
    (Cloudflare.pipe { CLOUDFLARE_ACCOUNT_ID := "acct", CLOUDFLARE_API_KEY := "key" }
        [ { id := Json.str "c", name := Json.str "C" } ] "hi" "a.b.c" [] {}
        HttpOutcome.timeout HttpOutcome.timeout).1
      = PipeResult.str "Error: Model 'b.c' not found in available Cloudflare models. Please select a different model." :=
  ⟨rfl, rfl⟩

/-- C2 amended: for a `model_id` containing a dot, the Grok and Perplexity
pipes place the text after the LAST dot in the payload's `model` field,
but the Cloudflare pipe uses the text after the FIRST dot as the vendor
model name (the name it checks against the catalog); the two agree only
when the id contains exactly one dot. -/
theorem claim_C2 (model_id : String) (hdot : containsChar model_id '.' = true) :
    (∀ (v : Grok.Valves) um msgs body net,
      v.GROK_API_KEY.isEmpty = false →
      (body.messages.getD ([] : List Msg)).isEmpty = false →
      ∃ req, (Grok.pipe v um model_id msgs body net).2 = [req] ∧
        req.payload.model = some (lastPiece model_id '.')) ∧
    (∀ (v : Perplexity.Valves) um msgs body net fm,
      v.PERPLEXITY_API_KEY.isEmpty = false →
      Perplexity.buildMessages um msgs = .ok fm →
      ∃ req, (Perplexity.pipe v um model_id msgs body net).2 = [req] ∧
        req.payload.model = some (lastPiece model_id '.')) ∧
    (∀ (v : Cloudflare.Valves) um msgs body n1 n2,
      v.CLOUDFLARE_API_KEY.isEmpty = false →
      v.CLOUDFLARE_ACCOUNT_ID.isEmpty = false →
      (Cloudflare.pipe v [] um model_id msgs body n1 n2).1
        = PipeResult.str ("Error: Model '" ++ splitOnceTail model_id '.'
            ++ "' not found in available Cloudflare models. Please select a different model.")) := by
  refine ⟨?_, ?_, ?_⟩
  · intro v um msgs body net hk hm
    refine ⟨{ url := v.GROK_API_BASE_URL ++ "/chat/completions",
              auth := "Bearer " ++ v.GROK_API_KEY,
              payload := Grok.normalizeMessages (Grok.buildPayload (Grok.stripModelName model_id) body) },
      ?_, ?_⟩
    · simp only [Grok.pipe, hk, Bool.false_eq_true, if_false, Grok.buildPayload, hm]
    · simp only [Grok.normalizeMessages, Grok.buildPayload, Grok.stripModelName, hdot, if_true]
  · intro v um msgs body net fm hk hb
    refine ⟨{ url := v.PERPLEXITY_API_BASE_URL ++ "/chat/completions",
              auth := "Bearer " ++ v.PERPLEXITY_API_KEY,
              payload := Perplexity.buildPayload (Perplexity.stripModelName model_id) fm body },
      ?_, ?_⟩
    · simp only [Perplexity.pipe, hk, Bool.false_eq_true, if_false, hb]
    · simp only [Perplexity.buildPayload, Perplexity.stripModelName, hdot, if_true]
  · intro v um msgs body n1 n2 hk ha
    simp only [Cloudflare.pipe, hk, ha, Bool.false_eq_true, if_false,
      Cloudflare.stripModelName, hdot, if_true, List.any_nil, Bool.not_false, if_true,
      not_false_iff]

/-- C2 witness: the amended statement instantiated at `"a.b.c"`. -/
theorem claim_C2_witness :
    containsChar "a.b.c" '.' = true ∧
    (∃ req, (Grok.pipe { GROK_API_KEY := "k" } "hi" "a.b.c" []
        { messages := some [{ role := some "user", content := some "hi" }] }
        HttpOutcome.timeout).2 = [req] ∧
      req.payload.model = some (lastPiece "a.b.c" '.')) := by
  refine ⟨by decide, ?_⟩
  exact (claim_C2 "a.b.c" (by decide)).1 { GROK_API_KEY := "k" } "hi" []
    { messages := some [{ role := some "user", content := some "hi" }] }
    HttpOutcome.timeout (by decide) (by decide)

/-- C5 counterexample: with credentials configured, a non-success (500)
catalog response makes `get_cloudflare_models` return the EMPTY sequence,
not the hard-coded fallback the claim promises for every failure. -/
theorem claim_C5_counterexample :
    (Cloudflare.get_cloudflare_models { CLOUDFLARE_ACCOUNT_ID := "acct", CLOUDFLARE_API_KEY := "key" }
        (HttpOutcome.resp 500 "Internal Server Error" "u" (Except.error "boom") "")).1 = [] ∧
    Cloudflare.fallback_models ≠ [] :=
  ⟨rfl, by simp [Cloudflare.fallback_models]⟩

/-- C5 amended: `get_cloudflare_models` never raises; missing credentials,
network exceptions, a 200 body that fails to parse (or raises while its
entries are processed), and a well-formed response with NO chat-capable
model all return the hard-coded fallback — while a non-success HTTP status
and a parsed body failing the `success`/`result` check return the EMPTY
sequence. -/
theorem claim_C5 (v : Cloudflare.Valves) (net : HttpOutcome) :
    (∃ ms reqs, Cloudflare.get_cloudflare_models v net = (ms, reqs)) ∧
    ((v.CLOUDFLARE_API_KEY.isEmpty || v.CLOUDFLARE_ACCOUNT_ID.isEmpty) = true →
      Cloudflare.get_cloudflare_models v net = (Cloudflare.fallback_models, [])) ∧
    ((net = HttpOutcome.timeout ∨ net = HttpOutcome.connError ∨ ∃ m, net = HttpOutcome.exc m) →
      (Cloudflare.get_cloudflare_models v net).1 = Cloudflare.fallback_models) ∧
    ((v.CLOUDFLARE_API_KEY.isEmpty || v.CLOUDFLARE_ACCOUNT_ID.isEmpty) = false →
      ∀ status reason rurl jb text, net = HttpOutcome.resp status reason rurl jb text →
        status ≠ 200 → (Cloudflare.get_cloudflare_models v net).1 = []) ∧
    (∀ reason rurl m text, net = HttpOutcome.resp 200 reason rurl (Except.error m) text →
      (Cloudflare.get_cloudflare_models v net).1 = Cloudflare.fallback_models) ∧
    ((v.CLOUDFLARE_API_KEY.isEmpty || v.CLOUDFLARE_ACCOUNT_ID.isEmpty) = false →
      ∀ reason rurl fs text, net = HttpOutcome.resp 200 reason rurl (Except.ok (Json.obj fs)) text →
        ((((Json.obj fs).getD "success" (Json.bool false)).truthy = false) ∨
          ((Json.obj fs).hasKey "result" = false)) →
        (Cloudflare.get_cloudflare_models v net).1 = []) ∧
    (∀ reason rurl fs text entries,
      net = HttpOutcome.resp 200 reason rurl (Except.ok (Json.obj fs)) text →
      ((Json.obj fs).getD "success" (Json.bool false)).truthy = true →
      (Json.obj fs).hasKey "result" = true →
      (Json.obj fs).getD "result" (Json.arr []) = Json.arr entries →
      Cloudflare.processModels entries = Except.ok [] →
      (Cloudflare.get_cloudflare_models v net).1 = Cloudflare.fallback_models) := by
  by_cases hc : (v.CLOUDFLARE_API_KEY.isEmpty || v.CLOUDFLARE_ACCOUNT_ID.isEmpty) = true
  · refine ⟨⟨_, _, rfl⟩, fun _ => by simp [Cloudflare.get_cloudflare_models, hc],
      fun _ => by simp [Cloudflare.get_cloudflare_models, hc],
      fun h => absurd hc (by simp [h]),
      fun _ _ _ _ _ => by simp [Cloudflare.get_cloudflare_models, hc],
      fun h => absurd hc (by simp [h]),
      fun _ _ _ _ _ _ _ _ _ _ => by simp [Cloudflare.get_cloudflare_models, hc]⟩
  · have hc' : (v.CLOUDFLARE_API_KEY.isEmpty || v.CLOUDFLARE_ACCOUNT_ID.isEmpty) = false := by
      simpa using hc
    refine ⟨⟨_, _, rfl⟩, fun h => absurd h hc, ?_, ?_, ?_, ?_, ?_⟩
    · rintro (rfl | rfl | ⟨m, rfl⟩) <;>
        simp [Cloudflare.get_cloudflare_models, hc', Cloudflare.catalogFrom]
    · rintro _ status reason rurl jb text rfl hst
      simp [Cloudflare.get_cloudflare_models, hc', Cloudflare.catalogFrom, hst]
    · rintro reason rurl m text rfl
      simp [Cloudflare.get_cloudflare_models, hc', Cloudflare.catalogFrom]
    · rintro _ reason rurl fs text rfl hfail
      rcases hfail with h | h <;>
        simp [Cloudflare.get_cloudflare_models, hc', Cloudflare.catalogFrom, h]
    · rintro reason rurl fs text entries rfl htr hhas hres hproc
      simp [Cloudflare.get_cloudflare_models, hc', Cloudflare.catalogFrom,
        htr, hhas, hres, hproc]

/-- C5 witness: the amended statement applied at a concrete 500 response
and at a concrete well-formed empty-catalog response. -/
theorem claim_C5_witness :
    (Cloudflare.get_cloudflare_models { CLOUDFLARE_ACCOUNT_ID := "a", CLOUDFLARE_API_KEY := "k" }
        (HttpOutcome.resp 503 "Service Unavailable" "u" (Except.error "x") "")).1 = [] ∧
    (Cloudflare.get_cloudflare_models { CLOUDFLARE_ACCOUNT_ID := "a", CLOUDFLARE_API_KEY := "k" }
        (HttpOutcome.resp 200 "OK" "u"
          (Except.ok (Json.obj [("success", Json.bool true), ("result", Json.arr [])])) "")).1
      = Cloudflare.fallback_models := by
  constructor
  · exact (claim_C5 { CLOUDFLARE_ACCOUNT_ID := "a", CLOUDFLARE_API_KEY := "k" }
      (HttpOutcome.resp 503 "Service Unavailable" "u" (Except.error "x") "")).2.2.2.1
      (by decide) 503 "Service Unavailable" "u" (Except.error "x") "" rfl (by decide)
  · exact (claim_C5 { CLOUDFLARE_ACCOUNT_ID := "a", CLOUDFLARE_API_KEY := "k" }
      (HttpOutcome.resp 200 "OK" "u"
        (Except.ok (Json.obj [("success", Json.bool true), ("result", Json.arr [])])) "")).2.2.2.2.2.2
      "OK" "u" [("success", Json.bool true), ("result", Json.arr [])] "" [] rfl
      (by decide) (by decide) rfl rfl

/-- The Cloudflare fallback attempt never raises. -/
theorem cloudflare_fallbackAttempt_no_raise (v : Cloudflare.Valves) (mn : String)
    (fp : Payload) (em : String) (n2 : HttpOutcome) :
    (Cloudflare.fallbackAttempt v mn fp em n2).isRaise = false := by
  unfold Cloudflare.fallbackAttempt
  cases n2 <;> dsimp only <;> repeat' first | rfl | split

/-- The Cloudflare transport and response handler never raises (the
`UnboundLocalError` of line 281 is caught by the outermost handler). -/
theorem cloudflare_sendAndHandle_no_raise (v : Cloudflare.Valves) (mn : String)
    (p : Payload) (n1 n2 : HttpOutcome) :
    (Cloudflare.sendAndHandle v mn p n1 n2).1.isRaise = false := by
  unfold Cloudflare.sendAndHandle
  cases n1 <;> dsimp only <;>
    repeat' first | rfl | split
  exact cloudflare_fallbackAttempt_no_raise v mn _ _ n2

/-- The Grok response handler never raises. -/
theorem grok_respond_no_raise (p : Payload) (n1 : HttpOutcome) :
    (Grok.respond p n1).isRaise = false := by
  unfold Grok.respond
  cases n1 <;> dsimp only <;> repeat' first | rfl | split

/-- The Perplexity response handler never raises (every exception inside
the `try` is caught and stringified). -/
theorem perplexity_respond_no_raise (body : Body) (n1 : HttpOutcome) :
    (Perplexity.respond body n1).isRaise = false := by
  unfold Perplexity.respond
  cases n1 <;> dsimp only <;> repeat' first | rfl | split

/-- C6 counterexample: with a key configured and a messages entry that has
no `role`, the Perplexity `pipe` raises a `KeyError` (the raw
`messages[-1]["role"]` access at line 168 sits outside the `try`), instead
of returning a value to the host. -/
theorem claim_C6_counterexample :
    (Perplexity.pipe { PERPLEXITY_API_KEY := "k" } "x" "sonar"
        [ { role := none, content := some "hi" } ] {} HttpOutcome.timeout).1
      = PipeResult.raise "KeyError: 'role'" ∧
    (PipeResult.raise "KeyError: 'role'").isRaise = true :=
  ⟨rfl, rfl⟩

/-- C6 amended: the Cloudflare and Grok pipes never raise, for any input;
the Perplexity pipe never raises whenever its message rebuilding succeeds,
but when the rebuilding raises a `KeyError` (a popped system message with
no `content`, or — with a non-empty `user_message` — a last remaining
message with no `role`, or with role `"user"` and no `content`) and the
key valve is set, that exception escapes `pipe` before any request is
issued. -/
theorem claim_C6 :
    (∀ (v : Cloudflare.Valves) pls um mid msgs body n1 n2,
      (Cloudflare.pipe v pls um mid msgs body n1 n2).1.isRaise = false) ∧
    (∀ (v : Grok.Valves) um mid msgs body n1,
      (Grok.pipe v um mid msgs body n1).1.isRaise = false) ∧
    (∀ (v : Perplexity.Valves) um mid msgs body n1 fm,
      Perplexity.buildMessages um msgs = Except.ok fm →
      (Perplexity.pipe v um mid msgs body n1).1.isRaise = false) ∧
    (∀ (v : Perplexity.Valves) um mid msgs body n1 e,
      Perplexity.buildMessages um msgs = Except.error e →
      v.PERPLEXITY_API_KEY.isEmpty = false →
      Perplexity.pipe v um mid msgs body n1 = (PipeResult.raise e, [])) := by
  refine ⟨?_, ?_, ?_, ?_⟩
  · intro v pls um mid msgs body n1 n2
    unfold Cloudflare.pipe
    dsimp only
    repeat' first | rfl | split
    exact cloudflare_sendAndHandle_no_raise v _ _ n1 n2
  · intro v um mid msgs body n1
    unfold Grok.pipe
    dsimp only
    repeat' first | rfl | split
    exact grok_respond_no_raise _ n1
  · intro v um mid msgs body n1 fm hb
    by_cases hk : v.PERPLEXITY_API_KEY.isEmpty = true
    · simp only [Perplexity.pipe, hk, if_true]
      rfl
    · have hk' : v.PERPLEXITY_API_KEY.isEmpty = false := by simpa using hk
      simp only [Perplexity.pipe, hk', Bool.false_eq_true, if_false, hb]
      exact perplexity_respond_no_raise body n1
  · intro v um mid msgs body n1 e hb hk
    simp [Perplexity.pipe, hk, hb]

/-- C6 witness: the no-raise statement applied at concrete inputs, with
the Perplexity rebuilding hypothesis discharged. -/
theorem claim_C6_witness :
    Perplexity.buildMessages "hi" [] = Except.ok
      [ { role := some "system", content := some "You are a helpful assistant." },
        { role := some "user", content := some "hi" } ] ∧
    (Perplexity.pipe { PERPLEXITY_API_KEY := "k" } "hi" "sonar" [] {}
        HttpOutcome.timeout).1.isRaise = false := by
  constructor
  · rfl
  · exact claim_C6.2.2.1 { PERPLEXITY_API_KEY := "k" } "hi" "sonar" [] {}
      HttpOutcome.timeout _ rfl

/-- The Grok filter keeps exactly the entries whose string id contains
`"grok"` case-insensitively, in response order. -/
theorem filterGrok_ids : ∀ (entries : List Json) (kept : List Grok.GrokModel),
    Grok.filterGrokEntries entries = Except.ok kept →
    kept.map Grok.GrokModel.id
      = (entries.filterMap entryIdString).filter (fun s => strIn "grok" (pyLower s))
  | [], kept, h => by
    simp only [Grok.filterGrokEntries] at h
    cases h
    rfl
  | e :: es, kept, h => by
    cases e with
    | obj fs =>
      simp only [Grok.filterGrokEntries] at h
      rcases hid : (Json.obj fs).getD "id" (Json.str "") with _ | b | n | s | xs | gs
      case str =>
        rw [hid] at h
        rcases hrec : Grok.filterGrokEntries es with m | rest <;>
          rw [hrec] at h <;> dsimp only at h
        · simp at h
        · by_cases hg : strIn "grok" (pyLower s) = true
          · rw [if_pos hg] at h
            simp only [Except.ok.injEq] at h
            subst h
            simp only [List.map_cons, List.filterMap_cons, entryIdString, hid,
              List.filter_cons, hg, if_true]
            exact congrArg (fun t => s :: t) (filterGrok_ids es rest hrec)
          · rw [if_neg hg] at h
            simp only [Except.ok.injEq] at h
            subst h
            simp only [List.filterMap_cons, entryIdString, hid, List.filter_cons, hg]
            exact filterGrok_ids es rest hrec
      all_goals rw [hid] at h
      all_goals rcases hrec : Grok.filterGrokEntries es with m | rest <;>
        rw [hrec] at h <;> dsimp only at h
      all_goals simp at h
      all_goals subst h
      all_goals simp only [List.filterMap_cons, entryIdString, hid]
      all_goals exact filterGrok_ids es rest hrec
    | null =>
      exact absurd h (by simp [Grok.filterGrokEntries])
    | bool b =>
      exact absurd h (by simp [Grok.filterGrokEntries])
    | num n =>
      exact absurd h (by simp [Grok.filterGrokEntries])
    | str s =>
      exact absurd h (by simp [Grok.filterGrokEntries])
    | arr xs =>
      exact absurd h (by simp [Grok.filterGrokEntries])

/-- C9 counterexample: a well-formed model-list response with one entry,
whose id does not contain "grok": the claim says the resolver returns
exactly the kept entries — the empty list — but `get_grok_models` returns
the hard-coded defaults instead. -/
theorem claim_C9_counterexample :
    Grok.filterGrokEntries [Json.obj [("id", Json.str "gpt-4")]] = Except.ok [] ∧
    (Grok.get_grok_models { GROK_API_KEY := "k" }
        (HttpOutcome.resp 200 "OK" "u"
          (Except.ok (Json.obj [("data", Json.arr [Json.obj [("id", Json.str "gpt-4")]])])) "")).1
      = Grok.default_models ∧
    Grok.default_models ≠ [] :=
  ⟨rfl, rfl, by simp [Grok.default_models]⟩

/-- C9 amended: on a well-formed model-list response, `get_grok_models`
keeps exactly the entries whose string id contains "grok"
case-insensitively and returns them sorted by id in descending
lexicographic (code-point) order — PROVIDED at least one entry is kept;
when the filter keeps nothing, the hard-coded default list is returned
instead of the empty kept list. -/
theorem claim_C9 (v : Grok.Valves) (reason rurl text : String)
    (fs : List (String × Json)) (entries : List Json) (kept : List Grok.GrokModel)
    (hk : v.GROK_API_KEY.isEmpty = false)
    (hdata : fs.lookup "data" = some (Json.arr entries))
    (hfilter : Grok.filterGrokEntries entries = Except.ok kept) :
    kept.map Grok.GrokModel.id
      = (entries.filterMap entryIdString).filter (fun s => strIn "grok" (pyLower s)) ∧
    (kept ≠ [] →
      ((Grok.get_grok_models v
          (HttpOutcome.resp 200 reason rurl (Except.ok (Json.obj fs)) text)).1).Perm kept ∧
      List.Pairwise (fun a b => pyStrLe b.id a.id = true)
        (Grok.get_grok_models v
          (HttpOutcome.resp 200 reason rurl (Except.ok (Json.obj fs)) text)).1) ∧
    (kept = [] →
      (Grok.get_grok_models v
          (HttpOutcome.resp 200 reason rurl (Except.ok (Json.obj fs)) text)).1
        = Grok.default_models) := by
  have htot : ∀ a b : Grok.GrokModel,
      (fun a b => pyStrLe b.id a.id) a b = true ∨ (fun a b => pyStrLe b.id a.id) b a = true := by
    intro a b
    simpa [pyStrLe] using lexLe_total b.id.data a.id.data
  have htrans : ∀ a b c : Grok.GrokModel,
      (fun a b => pyStrLe b.id a.id) a b = true → (fun a b => pyStrLe b.id a.id) b c = true →
      (fun a b => pyStrLe b.id a.id) a c = true := by
    intro a b c hab hbc
    exact lexLe_trans c.id.data b.id.data a.id.data hbc hab
  refine ⟨filterGrok_ids entries kept hfilter, ?_, ?_⟩
  · intro hne
    have hne' : kept.isEmpty = false := by
      cases kept with
      | nil => exact absurd rfl hne
      | cons a as => rfl
    have heq : (Grok.get_grok_models v
        (HttpOutcome.resp 200 reason rurl (Except.ok (Json.obj fs)) text)).1
        = sortByLe (fun a b => pyStrLe b.id a.id) kept := by
      simp [Grok.get_grok_models, hk, Grok.catalogFrom, hdata, hfilter, hne']
    rw [heq]
    exact ⟨sortByLe_perm _ kept, pairwise_sortByLe _ htot htrans kept⟩
  · intro hempty
    subst hempty
    simp [Grok.get_grok_models, hk, Grok.catalogFrom, hdata, hfilter]

/-- C9 witness: the amended statement at a concrete response containing
`grok-10`, `grok-2` and `gpt-4`; descending lexicographic order puts
`grok-2` before `grok-10`. -/
theorem claim_C9_witness :
    (Grok.get_grok_models { GROK_API_KEY := "k" }
        (HttpOutcome.resp 200 "OK" "u"
          (Except.ok (Json.obj [("data", Json.arr
            [ Json.obj [("id", Json.str "grok-10")],
              Json.obj [("id", Json.str "grok-2")],
              Json.obj [("id", Json.str "gpt-4")] ])])) "")).1.Perm
      [ { id := "grok-10", name := Json.str "grok-10" },
        { id := "grok-2", name := Json.str "grok-2" } ] ∧
    List.Pairwise (fun a b : Grok.GrokModel => pyStrLe b.id a.id = true)
      (Grok.get_grok_models { GROK_API_KEY := "k" }
        (HttpOutcome.resp 200 "OK" "u"
          (Except.ok (Json.obj [("data", Json.arr
            [ Json.obj [("id", Json.str "grok-10")],
              Json.obj [("id", Json.str "grok-2")],
              Json.obj [("id", Json.str "gpt-4")] ])])) "")).1 ∧
    (Grok.get_grok_models { GROK_API_KEY := "k" }
        (HttpOutcome.resp 200 "OK" "u"
          (Except.ok (Json.obj [("data", Json.arr
            [ Json.obj [("id", Json.str "grok-10")],
              Json.obj [("id", Json.str "grok-2")],
              Json.obj [("id", Json.str "gpt-4")] ])])) "")).1.map Grok.GrokModel.id
      = ["grok-2", "grok-10"] := by
  have h := (claim_C9 { GROK_API_KEY := "k" } "OK" "u" ""
    [("data", Json.arr
      [ Json.obj [("id", Json.str "grok-10")],
        Json.obj [("id", Json.str "grok-2")],
        Json.obj [("id", Json.str "gpt-4")] ])]
    [ Json.obj [("id", Json.str "grok-10")],
      Json.obj [("id", Json.str "grok-2")],
      Json.obj [("id", Json.str "gpt-4")] ]
    [ { id := "grok-10", name := Json.str "grok-10" },
      { id := "grok-2", name := Json.str "grok-2" } ]
    (by decide) rfl rfl).2.1 (by simp)
  exact ⟨h.1, h.2, rfl⟩

/-- A string built around `t` contains `t`. -/
theorem containsStr_append_mid (a t b : String) : containsStr (a ++ t ++ b) t :=
  ⟨a.data, b.data, by simp [String.data_append]⟩

set_option maxRecDepth 4000 in
/-- C3: for a non-200 response whose JSON body carries the recognised
vendor error shape, the Grok and Perplexity pipes return an error string
containing both the status code and the vendor message.  The Cloudflare
pipe does so only for `@cf/`-prefixed models: for any other model the
`url.endswith(f"/ai/run/{model_id_for_url}")` test at line 281 evaluates a
name bound only on the `@cf/` branch, the `UnboundLocalError` is caught by
the outermost handler, and the constructed error message — status code and
vendor detail included — is discarded (evaluated here at a concrete
failing input). -/
theorem claim_C3 (status : Nat) (reason rurl text m : String)
    (fs efs : List (String × Json))
    (hst : status ≠ 200)
    (herr : fs.lookup "error" = some (Json.obj efs))
    (hmsg : efs.lookup "message" = some (Json.str m)) :
    (∀ (v : Grok.Valves) um mid msgs body,
      v.GROK_API_KEY.isEmpty = false →
      (body.messages.getD ([] : List Msg)).isEmpty = false →
      (Grok.pipe v um mid msgs body
          (HttpOutcome.resp status reason rurl (Except.ok (Json.obj fs)) text)).1
        = PipeResult.str ("Error: " ++ toString status ++ " " ++ reason ++ " for url: "
            ++ rurl ++ (". " ++ m)) ∧
      containsStr ("Error: " ++ toString status ++ " " ++ reason ++ " for url: "
        ++ rurl ++ (". " ++ m)) (toString status) ∧
      containsStr ("Error: " ++ toString status ++ " " ++ reason ++ " for url: "
        ++ rurl ++ (". " ++ m)) m) ∧
    (∀ (v : Perplexity.Valves) um mid msgs body fm,
      v.PERPLEXITY_API_KEY.isEmpty = false →
      Perplexity.buildMessages um msgs = Except.ok fm →
      (Perplexity.pipe v um mid msgs body
          (HttpOutcome.resp status reason rurl (Except.ok (Json.obj fs)) text)).1
        = PipeResult.str ("Error: " ++ toString status ++ " " ++ reason ++ " for url: "
            ++ rurl ++ (". " ++ m))) ∧
    ((Cloudflare.pipe { CLOUDFLARE_ACCOUNT_ID := "acct", CLOUDFLARE_API_KEY := "key" }
        [ { id := Json.str "llama-3", name := Json.str "Llama 3" } ] "hi" "llama-3" []
        { messages := some [{ role := some "user", content := some "hi" }] }
        (HttpOutcome.resp 400 "Bad Request" "u"
          (Except.ok (Json.obj [("errors", Json.arr [Json.obj [("message", Json.str "invalid request")]])]))
          "")
        HttpOutcome.timeout).1
        = PipeResult.str ("Error: " ++ Cloudflare.unboundLocalMsg) ∧
      ¬ containsStr ("Error: " ++ Cloudflare.unboundLocalMsg) "400" ∧
      ¬ containsStr ("Error: " ++ Cloudflare.unboundLocalMsg) "invalid request") := by
  have hdetail : errorFieldDetail (Except.ok (Json.obj fs)) text = ". " ++ m := by
    simp [errorFieldDetail, herr, Json.getD, Json.lookup?, hmsg, Json.pyStr]
  refine ⟨?_, ?_, rfl, by decide, by decide⟩
  · intro v um mid msgs body hk hm
    refine ⟨?_, ?_, ?_⟩
    · simp only [Grok.pipe, hk, Bool.false_eq_true, if_false, Grok.buildPayload, hm,
        Grok.respond, hst, if_true, ne_eq, not_false_iff, hdetail]
    · have : "Error: " ++ toString status ++ " " ++ reason ++ " for url: " ++ rurl ++ (". " ++ m)
          = "Error: " ++ toString status
            ++ (" " ++ reason ++ " for url: " ++ rurl ++ (". " ++ m)) := by
        simp [String.ext_iff, String.data_append]
      rw [this]
      exact containsStr_append_mid "Error: " (toString status) _
    · have : "Error: " ++ toString status ++ " " ++ reason ++ " for url: " ++ rurl ++ (". " ++ m)
          = ("Error: " ++ toString status ++ " " ++ reason ++ " for url: " ++ rurl ++ ". ")
            ++ m ++ "" := by
        simp [String.ext_iff, String.data_append]
      rw [this]
      exact containsStr_append_mid _ m ""
  · intro v um mid msgs body fm hk hb
    simp only [Perplexity.pipe, hk, Bool.false_eq_true, if_false, hb,
      Perplexity.respond, hst, if_true, ne_eq, not_false_iff, hdetail]

/-- C3 witness: the Grok and Perplexity parts applied at a concrete 404
response with `{"error": {"message": "model not found"}}`. -/
theorem claim_C3_witness :
    (Grok.pipe { GROK_API_KEY := "k" } "hi" "grok-2" []
        { messages := some [{ role := some "user", content := some "hi" }] }
        (HttpOutcome.resp 404 "Not Found" "u"
          (Except.ok (Json.obj [("error", Json.obj [("message", Json.str "model not found")])])) "")).1
      = PipeResult.str ("Error: " ++ toString (404 : Nat) ++ " " ++ "Not Found" ++ " for url: "
          ++ "u" ++ (". " ++ "model not found")) ∧
    containsStr ("Error: " ++ toString (404 : Nat) ++ " " ++ "Not Found" ++ " for url: "
      ++ "u" ++ (". " ++ "model not found")) (toString (404 : Nat)) := by
  have h := (claim_C3 404 "Not Found" "u" "" "model not found"
    [("error", Json.obj [("message", Json.str "model not found")])]
    [("message", Json.str "model not found")]
    (by decide) rfl rfl).1 { GROK_API_KEY := "k" } "hi" "grok-2" []
    { messages := some [{ role := some "user", content := some "hi" }] }
    (by decide) (by decide)
  exact ⟨h.1, h.2.1⟩

/-- C4: with no `stream` key in the host body, the payload each adapter
sends carries `stream = true`, and on a 200 response the Cloudflare and
Grok pipes return the raw line iterator — but the Perplexity pipe, whose
success branch reads `body.get("stream", False)`, treats the same call as
non-streaming and returns the parsed, reformatted JSON object instead
(shown at a concrete input). -/
theorem claim_C4 (reason rurl text : String) (jb : Except String Json) :
    (∀ (v : Cloudflare.Valves) pls um mid msgs (body : Body) n2,
      v.CLOUDFLARE_API_KEY.isEmpty = false →
      v.CLOUDFLARE_ACCOUNT_ID.isEmpty = false →
      body.stream = none →
      (pls.any fun mo => mo.id.beq (Json.str (Cloudflare.stripModelName mid))) = true →
      (body.messages.getD ([] : List Msg)).isEmpty = false →
      (Cloudflare.buildPayload (Cloudflare.stripModelName mid) body).stream = true ∧
      (Cloudflare.pipe v pls um mid msgs body
          (HttpOutcome.resp 200 reason rurl jb text) n2).1
        = PipeResult.iterLines (iterLinesOf text)) ∧
    (∀ (v : Grok.Valves) um mid msgs (body : Body),
      v.GROK_API_KEY.isEmpty = false →
      body.stream = none →
      (body.messages.getD ([] : List Msg)).isEmpty = false →
      (Grok.normalizeMessages (Grok.buildPayload (Grok.stripModelName mid) body)).stream = true ∧
      (Grok.pipe v um mid msgs body (HttpOutcome.resp 200 reason rurl jb text)).1
        = PipeResult.iterLines (iterLinesOf text)) ∧
    ((Perplexity.buildPayload "sonar"
        [{ role := some "system", content := some "You are a helpful assistant." }]
        {}).stream = true ∧
      (Perplexity.pipe { PERPLEXITY_API_KEY := "k" } "" "sonar" [] {}
          (HttpOutcome.resp 200 "OK" "u"
            (Except.ok (Json.obj
              [ ("id", Json.str "i"), ("model", Json.str "sonar"), ("created", Json.num 1),
                ("usage", Json.obj []), ("object", Json.str "chat.completion"),
                ("choices", Json.arr [Json.obj
                  [ ("index", Json.num 0), ("finish_reason", Json.str "stop"),
                    ("message", Json.obj
                      [("role", Json.str "assistant"), ("content", Json.str "hello")]) ]]) ]))
            "line1")).1
        = PipeResult.json (Json.obj
            [ ("id", Json.str "i"), ("model", Json.str "sonar"), ("created", Json.num 1),
              ("usage", Json.obj []), ("object", Json.str "chat.completion"),
              ("choices", Json.arr [Json.obj
                [ ("index", Json.num 0), ("finish_reason", Json.str "stop"),
                  ("message", Json.obj
                    [("role", Json.str "assistant"), ("content", Json.str "hello")]),
                  ("delta", Json.obj
                    [("role", Json.str "assistant"), ("content", Json.str "")]) ]]) ])) := by
  refine ⟨?_, ?_, rfl, rfl⟩
  · intro v pls um mid msgs body n2 hk ha hstream hfound hm
    have hpstream : (Cloudflare.buildPayload (Cloudflare.stripModelName mid) body).stream = true := by
      simp [Cloudflare.buildPayload, hstream]
    refine ⟨hpstream, ?_⟩
    simp only [Cloudflare.pipe, hk, ha, Bool.false_eq_true, if_false, hfound,
      Bool.not_true, not_false_iff, hm, Cloudflare.sendAndHandle]
    by_cases hrun : pyStartsWith (Cloudflare.stripModelName mid) "@cf/" = true <;>
      simp [hrun, hpstream, Cloudflare.buildPayload, hm, hstream]
  · intro v um mid msgs body hk hstream hm
    have hpstream :
        (Grok.normalizeMessages (Grok.buildPayload (Grok.stripModelName mid) body)).stream = true := by
      simp [Grok.normalizeMessages, Grok.buildPayload, hstream]
    refine ⟨hpstream, ?_⟩
    simp only [Grok.pipe, hk, Bool.false_eq_true, if_false, Grok.buildPayload, hm,
      Grok.respond, hpstream]
    simp [Grok.normalizeMessages, Grok.buildPayload, hstream]

/-- C4 witness: the Cloudflare and Grok parts applied at a concrete call
with no `stream` key. -/
theorem claim_C4_witness :
    (Cloudflare.buildPayload "@cf/meta/llama-3-8b-instruct"
        { messages := some [{ role := some "user", content := some "hi" }] }).stream = true ∧
    (Cloudflare.pipe { CLOUDFLARE_ACCOUNT_ID := "a", CLOUDFLARE_API_KEY := "k" }
        Cloudflare.fallback_models "hi" "@cf/meta/llama-3-8b-instruct" []
        { messages := some [{ role := some "user", content := some "hi" }] }
        (HttpOutcome.resp 200 "OK" "u" (Except.error "not json") "line1\nline2")
        HttpOutcome.timeout).1
      = PipeResult.iterLines (iterLinesOf "line1\nline2") := by
  have h := (claim_C4 "OK" "u" "line1\nline2" (Except.error "not json")).1
    { CLOUDFLARE_ACCOUNT_ID := "a", CLOUDFLARE_API_KEY := "k" }
    Cloudflare.fallback_models "hi" "@cf/meta/llama-3-8b-instruct" []
    { messages := some [{ role := some "user", content := some "hi" }] }
    HttpOutcome.timeout (by decide) (by decide) rfl (by decide) (by decide)
  exact h

/-- The Cloudflare transport issues at most two chat requests. -/
theorem cloudflare_sendAndHandle_le_two (v : Cloudflare.Valves) (mn : String)
    (p : Payload) (n1 n2 : HttpOutcome) :
    (Cloudflare.sendAndHandle v mn p n1 n2).2.length ≤ 2 := by
  unfold Cloudflare.sendAndHandle
  cases n1 <;> dsimp only <;> repeat' first | simp | split

/-- C7: for a `@cf/` model in the catalog, a primary run-endpoint POST
failing with 400 or 404 triggers exactly one fallback POST to the v1
chat-completions endpoint, with the `model` field restored in the payload;
if the fallback also fails the original error message is returned.  Any
other failing status sends no second request, and no call of `pipe` ever
issues more than two chat requests. -/
theorem claim_C7 (v : Cloudflare.Valves) (pls : List ModelEntry)
    (um mid : String) (msgs : List Msg) (body : Body)
    (status : Nat) (reason rurl text : String) (jb : Except String Json) (net2 : HttpOutcome)
    (hk : v.CLOUDFLARE_API_KEY.isEmpty = false)
    (ha : v.CLOUDFLARE_ACCOUNT_ID.isEmpty = false)
    (hfound : (pls.any fun mo => mo.id.beq (Json.str (Cloudflare.stripModelName mid))) = true)
    (hm : (body.messages.getD ([] : List Msg)).isEmpty = false)
    (hrun : pyStartsWith (Cloudflare.stripModelName mid) "@cf/" = true)
    (hst : status ≠ 200) :
    ((status = 400 ∨ status = 404) →
      ∃ req1 req2,
        (Cloudflare.pipe v pls um mid msgs body
            (HttpOutcome.resp status reason rurl jb text) net2).2 = [req1, req2] ∧
        req2.url = Cloudflare.base_url ++ "/" ++ v.CLOUDFLARE_ACCOUNT_ID ++ "/ai/v1/chat/completions" ∧
        req2.payload.model = some (Cloudflare.stripModelName mid) ∧
        (∀ s2 r2 u2 jb2 t2, net2 = HttpOutcome.resp s2 r2 u2 jb2 t2 → s2 ≠ 200 →
          (Cloudflare.pipe v pls um mid msgs body
              (HttpOutcome.resp status reason rurl jb text) net2).1
            = PipeResult.str ("Error: " ++ toString status ++ " " ++ reason ++ " for url: "
                ++ rurl ++ Cloudflare.errorDetail jb text ++ Cloudflare.troubleshooting))) ∧
    (¬ (status = 400 ∨ status = 404) →
      (Cloudflare.pipe v pls um mid msgs body
          (HttpOutcome.resp status reason rurl jb text) net2).2.length = 1) ∧
    (∀ n1 n2, (Cloudflare.pipe v pls um mid msgs body n1 n2).2.length ≤ 2) := by
  refine ⟨?_, ?_, ?_⟩
  · intro h44
    simp only [Cloudflare.pipe, hk, ha, Bool.false_eq_true, if_false, hfound,
      Bool.not_true, not_false_iff, Cloudflare.buildPayload, hm,
      Cloudflare.sendAndHandle, hst, if_false, hrun, if_true, h44]
    refine ⟨_, _, rfl, rfl, rfl, ?_⟩
    rintro s2 r2 u2 jb2 t2 rfl hs2
    simp [hst, Cloudflare.fallbackAttempt, hs2]
  · intro h44
    simp only [Cloudflare.pipe, hk, ha, Bool.false_eq_true, if_false, hfound,
      Bool.not_true, not_false_iff, Cloudflare.buildPayload, hm,
      Cloudflare.sendAndHandle, hst, if_false, hrun, if_true, h44]
    simp [hst, h44]
  · intro n1 n2
    unfold Cloudflare.pipe
    dsimp only
    repeat' first | simp | split
    exact cloudflare_sendAndHandle_le_two v _ _ n1 n2

/-- C7 witness: a concrete `@cf/` model, primary 404, fallback 500: two
requests, the second to the v1 endpoint with the model restored, and the
original error returned. -/
theorem claim_C7_witness :
    ∃ req1 req2,
      (Cloudflare.pipe { CLOUDFLARE_ACCOUNT_ID := "a", CLOUDFLARE_API_KEY := "k" }
          Cloudflare.fallback_models "hi" "@cf/meta/llama-3-8b-instruct" []
          { messages := some [{ role := some "user", content := some "hi" }] }
          (HttpOutcome.resp 404 "Not Found" "u" (Except.error "x") "")
          (HttpOutcome.resp 500 "Internal Server Error" "u2" (Except.error "y") "")).2
        = [req1, req2] ∧
      req2.url = Cloudflare.base_url ++ "/" ++ "a" ++ "/ai/v1/chat/completions" ∧
      req2.payload.model = some (Cloudflare.stripModelName "@cf/meta/llama-3-8b-instruct") := by
  have h := (claim_C7 { CLOUDFLARE_ACCOUNT_ID := "a", CLOUDFLARE_API_KEY := "k" }
    Cloudflare.fallback_models "hi" "@cf/meta/llama-3-8b-instruct" []
    { messages := some [{ role := some "user", content := some "hi" }] }
    404 "Not Found" "u" "" (Except.error "x")
    (HttpOutcome.resp 500 "Internal Server Error" "u2" (Except.error "y") "")
    (by decide) (by decide) (by decide) (by decide) (by decide) (by decide)).1
    (Or.inr rfl)
  exact ⟨h.choose, h.choose_spec.choose,
    h.choose_spec.choose_spec.1, h.choose_spec.choose_spec.2.1, h.choose_spec.choose_spec.2.2.1⟩

/-- Rendering a well-formed citations array yields one anchor per
citation, in order. -/
theorem renderCitations_ok (cites : List (String × String)) :
    exceptMapList Perplexity.renderCitation
        (cites.map (fun c => Json.obj [("url", Json.str c.1), ("title", Json.str c.2)]))
      = Except.ok (cites.map anchorOf) := by
  induction cites with
  | nil => rfl
  | cons c cs ih =>
    simp only [List.map_cons, exceptMapList, ih, Perplexity.renderCitation, Json.getKey,
      List.lookup, anchorOf]
    rfl

/-- Rebuilding one well-shaped choice succeeds with the given content and
an empty `delta`. -/
theorem rebuildChoice_ok (content : Json) (c : Json) (i f mm r : Json)
    (hi : c.getKey "index" = Except.ok i) (hf : c.getKey "finish_reason" = Except.ok f)
    (hm : c.getKey "message" = Except.ok mm) (hr : mm.getKey "role" = Except.ok r) :
    Perplexity.rebuildChoice content c
      = Except.ok (Json.obj
          [ ("index", i), ("finish_reason", f),
            ("message", Json.obj [("role", r), ("content", content)]),
            ("delta", Json.obj [("role", Json.str "assistant"), ("content", Json.str "")]) ]) := by
  simp [Perplexity.rebuildChoice, hi, hf, hm, hr]

/-- Rebuilding a list of well-shaped choices succeeds. -/
theorem rebuildChoices_ok (content : Json) :
    ∀ (cs : List Json), (∀ c ∈ cs, choiceShaped c) →
      ∃ outs, exceptMapList (Perplexity.rebuildChoice content) cs = Except.ok outs
  | [], _ => ⟨[], rfl⟩
  | c :: cs, h => by
    rcases h c (List.mem_cons_self c cs) with ⟨i, f, mm, r, hi, hf, hm, hr⟩
    rcases rebuildChoices_ok content cs (fun d hd => h d (List.mem_cons_of_mem c hd)) with ⟨outs, houts⟩
    exact ⟨Json.obj
        [ ("index", i), ("finish_reason", f),
          ("message", Json.obj [("role", r), ("content", content)]),
          ("delta", Json.obj [("role", Json.str "assistant"), ("content", Json.str "")]) ] :: outs,
      by simp [exceptMapList, rebuildChoice_ok content c i f mm r hi hf hm hr, houts]⟩

/-- C8: for Perplexity in non-streaming mode, a 200 response whose
`citations` array is non-empty comes back with the first choice's message
content equal to the original content followed by the rendered `Sources`
block, one anchor per citation in original order; with the array absent or
empty, the content comes back unchanged. -/
theorem claim_C8 (v : Perplexity.Valves) (um mid : String) (msgs : List Msg) (body : Body)
    (fm : List Msg) (reason rurl text : String)
    (fs : List (String × Json)) (cites : List (String × String))
    (c0 : Json) (rest : List Json) (m0 content0 idx fr role : Json)
    (jid jmodel jcreated jusage jobject : Json)
    (hk : v.PERPLEXITY_API_KEY.isEmpty = false)
    (hb : Perplexity.buildMessages um msgs = Except.ok fm)
    (hstream : body.stream.getD false = false)
    (hch : fs.lookup "choices" = some (Json.arr (c0 :: rest)))
    (hmsg : c0.getKey "message" = Except.ok m0)
    (hcnt : m0.getKey "content" = Except.ok content0)
    (hidx : c0.getKey "index" = Except.ok idx)
    (hfr : c0.getKey "finish_reason" = Except.ok fr)
    (hrole : m0.getKey "role" = Except.ok role)
    (hid : fs.lookup "id" = some jid) (hmo : fs.lookup "model" = some jmodel)
    (hcr : fs.lookup "created" = some jcreated) (hus : fs.lookup "usage" = some jusage)
    (hob : fs.lookup "object" = some jobject)
    (hrest : ∀ c ∈ rest, choiceShaped c) :
    (∀ orig, fs.lookup "citations" = some (citesJson cites) → cites ≠ [] →
      content0 = Json.str orig →
      ∃ rest',
        (Perplexity.pipe v um mid msgs body
            (HttpOutcome.resp 200 reason rurl (Except.ok (Json.obj fs)) text)).1
          = PipeResult.json (Json.obj
              [ ("id", jid), ("model", jmodel), ("created", jcreated),
                ("usage", jusage), ("object", jobject),
                ("choices", Json.arr (Json.obj
                  [ ("index", idx), ("finish_reason", fr),
                    ("message", Json.obj
                      [("role", role), ("content", Json.str (orig ++ sourcesBlock cites))]),
                    ("delta", Json.obj
                      [("role", Json.str "assistant"), ("content", Json.str "")]) ]
                  :: rest'))])) ∧
    ((fs.lookup "citations" = none ∨ fs.lookup "citations" = some (citesJson [])) →
      ∃ rest',
        (Perplexity.pipe v um mid msgs body
            (HttpOutcome.resp 200 reason rurl (Except.ok (Json.obj fs)) text)).1
          = PipeResult.json (Json.obj
              [ ("id", jid), ("model", jmodel), ("created", jcreated),
                ("usage", jusage), ("object", jobject),
                ("choices", Json.arr (Json.obj
                  [ ("index", idx), ("finish_reason", fr),
                    ("message", Json.obj [("role", role), ("content", content0)]),
                    ("delta", Json.obj
                      [("role", Json.str "assistant"), ("content", Json.str "")]) ]
                  :: rest'))])) := by
  have hch' : (Json.obj fs).getKey "choices" = Except.ok (Json.arr (c0 :: rest)) := by
    simp [Json.getKey, hch]
  have hid' : (Json.obj fs).getKey "id" = Except.ok jid := by simp [Json.getKey, hid]
  have hmo' : (Json.obj fs).getKey "model" = Except.ok jmodel := by simp [Json.getKey, hmo]
  have hcr' : (Json.obj fs).getKey "created" = Except.ok jcreated := by simp [Json.getKey, hcr]
  have hus' : (Json.obj fs).getKey "usage" = Except.ok jusage := by simp [Json.getKey, hus]
  have hob' : (Json.obj fs).getKey "object" = Except.ok jobject := by simp [Json.getKey, hob]
  constructor
  · intro orig hcit hne horig
    subst horig
    have hcites : Perplexity.extractCitations (Json.obj fs)
        = Except.ok (cites.map anchorOf) := by
      simp only [Perplexity.extractCitations, Json.lookup?, hcit, citesJson]
      exact renderCitations_ok cites
    have hmapne : (cites.map anchorOf).isEmpty = false := by
      cases cites with
      | nil => exact absurd rfl hne
      | cons a as => rfl
    have hCeq : Json.str ((Json.str orig).pyStr ++ "<br><br><b>Sources:</b><br>"
          ++ String.intercalate "<br>" ((cites.map anchorOf).map (fun c => "• " ++ c)))
        = Json.str (orig ++ sourcesBlock cites) := by
      simp only [Json.pyStr, sourcesBlock, List.map_map]
      refine congrArg Json.str (String.ext ?_)
      simp only [String.data_append, List.append_assoc]
      rfl
    rcases rebuildChoices_ok (Json.str (orig ++ sourcesBlock cites)) rest hrest
      with ⟨outs, houts⟩
    refine ⟨outs, ?_⟩
    simp only [Perplexity.pipe, hk, Bool.false_eq_true, if_false, hb, Perplexity.respond,
      ne_eq, not_true_eq_false, if_false, hstream, Perplexity.formatResponse, hcites,
      hch', hmsg, hcnt, hidx, hfr, hrole, hid', hmo', hcr', hus', hob', hmapne, hCeq,
      exceptMapList, houts,
      rebuildChoice_ok (Json.str (orig ++ sourcesBlock cites)) c0 idx fr m0 role
        hidx hfr hmsg hrole]
  · intro hcit
    have hcites : Perplexity.extractCitations (Json.obj fs) = Except.ok [] := by
      rcases hcit with h | h <;>
        simp [Perplexity.extractCitations, Json.lookup?, h, citesJson, exceptMapList]
    rcases rebuildChoices_ok content0 rest hrest with ⟨outs, houts⟩
    refine ⟨outs, ?_⟩
    simp only [Perplexity.pipe, hk, Bool.false_eq_true, if_false, hb, Perplexity.respond,
      ne_eq, not_true_eq_false, if_false, hstream, Perplexity.formatResponse, hcites,
      hch', hmsg, hcnt, hidx, hfr, hrole, hid', hmo', hcr', hus', hob',
      List.isEmpty_nil, if_true, exceptMapList, houts,
      rebuildChoice_ok content0 c0 idx fr m0 role hidx hfr hmsg hrole]

/-- C8 witness: the citation statement applied at a concrete two-citation
response. -/
theorem claim_C8_witness :
    ∃ rest',
      (Perplexity.pipe { PERPLEXITY_API_KEY := "k" } "hi" "sonar" [] { stream := some false }
          (HttpOutcome.resp 200 "OK" "u" (Except.ok (Json.obj
            [ ("citations", citesJson [("http://e", "E"), ("http://f", "F")]),
              ("id", Json.str "i"), ("model", Json.str "sonar"), ("created", Json.num 1),
              ("usage", Json.obj []), ("object", Json.str "chat.completion"),
              ("choices", Json.arr [Json.obj
                [ ("index", Json.num 0), ("finish_reason", Json.str "stop"),
                  ("message", Json.obj
                    [("role", Json.str "assistant"), ("content", Json.str "hello")]) ]]) ]))
            "")).1
        = PipeResult.json (Json.obj
            [ ("id", Json.str "i"), ("model", Json.str "sonar"), ("created", Json.num 1),
              ("usage", Json.obj []), ("object", Json.str "chat.completion"),
              ("choices", Json.arr (Json.obj
                [ ("index", Json.num 0), ("finish_reason", Json.str "stop"),
                  ("message", Json.obj
                    [ ("role", Json.str "assistant"),
                      ("content", Json.str
                        ("hello" ++ sourcesBlock [("http://e", "E"), ("http://f", "F")])) ]),
                  ("delta", Json.obj
                    [("role", Json.str "assistant"), ("content", Json.str "")]) ]
                :: rest'))]) :=
  (claim_C8 { PERPLEXITY_API_KEY := "k" } "hi" "sonar" [] { stream := some false }
    [ { role := some "system", content := some "You are a helpful assistant." },
      { role := some "user", content := some "hi" } ]
    "OK" "u" ""
    [ ("citations", citesJson [("http://e", "E"), ("http://f", "F")]),
      ("id", Json.str "i"), ("model", Json.str "sonar"), ("created", Json.num 1),
      ("usage", Json.obj []), ("object", Json.str "chat.completion"),
      ("choices", Json.arr [Json.obj
        [ ("index", Json.num 0), ("finish_reason", Json.str "stop"),
          ("message", Json.obj
            [("role", Json.str "assistant"), ("content", Json.str "hello")]) ]]) ]
    [("http://e", "E"), ("http://f", "F")]
    (Json.obj
      [ ("index", Json.num 0), ("finish_reason", Json.str "stop"),
        ("message", Json.obj
          [("role", Json.str "assistant"), ("content", Json.str "hello")]) ])
    []
    (Json.obj [("role", Json.str "assistant"), ("content", Json.str "hello")])
    (Json.str "hello") (Json.num 0) (Json.str "stop") (Json.str "assistant")
    (Json.str "i") (Json.str "sonar") (Json.num 1) (Json.obj []) (Json.str "chat.completion")
    rfl rfl rfl rfl rfl rfl rfl rfl rfl rfl rfl rfl rfl rfl
    (by simp)).1 "hello" rfl (by simp) rfl
